import Mathlib

set_option maxRecDepth 8000
set_option maxHeartbeats 1000000

/-
Shallow embedding of the correction/preference detection engine of this
repository (src/analysis/corrections.py and src/analysis/preferences.py).

Conventions of the embedding:
  * Python `str` is Lean `String`, manipulated through its character list;
    `len` is the character count.
  * Python `float` confidences are modelled as rationals; the decimal
    literals of the source (0.65, 0.05, 0.1, 0.4, 1.0) are exact binary
    independent rationals here, so min/max/plus arithmetic agrees with the
    source on every value the source produces.
  * Python regular expressions are embedded as explicit terms of an
    abstract syntax `Regex` together with a backtracking matcher with
    Python semantics (leftmost match, greedy/lazy quantifiers, groups,
    word boundaries, optional MULTILINE mode).  In every pattern of the
    source each starred/plus-quantified subexpression is a single
    character class, which the syntax reflects with `repCls`; this keeps
    the matcher total and structurally recursive.
  * `uuid.uuid4()` is nondeterministic; it is modelled by a supplied
    identifier source (a function of the running detection index, or a
    fixed identifier string), which no claim inspects.
  * Database access in `detect_corrections_in_conversation` is plumbing:
    the two queries are modelled by passing the conversation project path
    and its timestamp-ordered message list as arguments.
-/

/-- Newline character, written via its code point. -/
def nlChar : Char := Char.ofNat 10

/-- Apostrophe character, written via its code point. -/
def aposChar : Char := Char.ofNat 39

/-- Apostrophe as a one-character string. -/
def aposS : String := String.singleton aposChar

/-- Backslash character. -/
def bslashChar : Char := Char.ofNat 92

/-- Backtick character. -/
def btickChar : Char := Char.ofNat 96

/-- Left and right curly brace characters. -/
def lbraceChar : Char := Char.ofNat 123

/-- Right curly brace character. -/
def rbraceChar : Char := Char.ofNat 125

/-- ASCII whitespace recognised by Python `str.strip()` and by the regex
class backslash-s (space, tab, newline, vertical tab, form feed,
carriage return). -/
def isPyWs (c : Char) : Bool :=
  c = ' ' || c = Char.ofNat 9 || c = nlChar || c = Char.ofNat 11 ||
  c = Char.ofNat 12 || c = Char.ofNat 13

/-- Word character for the regex class backslash-w and for word
boundaries (ASCII letters, digits, underscore). -/
def isWordChar (c : Char) : Bool :=
  (('a' ≤ c && c ≤ 'z') || ('A' ≤ c && c ≤ 'Z') ||
   ('0' ≤ c && c ≤ '9') || c = '_')

/-- Decimal digit test for the regex class backslash-d. -/
def isDigitChar (c : Char) : Bool := '0' ≤ c && c ≤ '9'

/-- Any character other than a newline: the regex dot. -/
def isDotChar (c : Char) : Bool := !(c = nlChar)

/-- Python `str.strip()`: drop leading and trailing whitespace. -/
def pyStrip (s : String) : String :=
  String.mk (((s.data.dropWhile isPyWs).reverse.dropWhile isPyWs).reverse)

/-- Python `str.lower()` (ASCII case folding). -/
def pyLower (s : String) : String := String.mk (s.data.map Char.toLower)

/-- Python truthiness of an optional string: `None` and the empty string
are falsy. -/
def strOptTruthy : Option String → Bool
  | none => false
  | some s => !(s.data.isEmpty)

/-
The library marks rational addition, multiplication and scientific
literals irreducible, which blocks kernel evaluation of concrete runs.
The embedding therefore computes with the following kernel-friendly
equivalents, built from the reducible smart constructor `mkRat`; the
bridge lemmas `qadd_eq_add`, `qmul_eq_mul`, `qmin_eq_min` and
`qmax_eq_max` below identify them with the standard operations, and the
decimal literals of the source are written as explicit fractions
(`mkRat 13 20` for 0.65 and so on), which denote the same exact values.
-/

/-- Rational addition through the smart constructor. -/
def qadd (a b : ℚ) : ℚ := mkRat (a.num * b.den + b.num * a.den) (a.den * b.den)

/-- Rational multiplication through the smart constructor. -/
def qmul (a b : ℚ) : ℚ := mkRat (a.num * b.num) (a.den * b.den)

/-- Python `min` on two rationals. -/
def qmin (a b : ℚ) : ℚ := if a ≤ b then a else b

/-- Python `max` on two rationals. -/
def qmax (a b : ℚ) : ℚ := if a ≤ b then b else a

/-- Code-point lexicographic order on character lists: Python string
comparison. -/
def lexLeChars : List Char → List Char → Bool
  | [], _ => true
  | _ :: _, [] => false
  | a :: as, b :: bs =>
    if a.toNat < b.toNat then true
    else if b.toNat < a.toNat then false
    else lexLeChars as bs

/-- Python `min` on two strings. -/
def smin (a b : String) : String := if lexLeChars a.data b.data then a else b

/-- Python `max` on two strings. -/
def smax (a b : String) : String := if lexLeChars a.data b.data then b else a

/-- Abstract syntax of the regular-expression fragment used by the
source.  Quantified subexpressions are single character classes
(`repCls p lo hi lazy`), mirroring every pattern in the source. -/
inductive Regex where
  | eps : Regex
  | cls (p : Char → Bool) : Regex
  | cat (a b : Regex) : Regex
  | alt (a b : Regex) : Regex
  | repCls (p : Char → Bool) (lo : Nat) (hi : Option Nat) (lazyq : Bool) : Regex
  | group (idx : Nat) (r : Regex) : Regex
  | bol : Regex
  | eol : Regex
  | wordB : Regex

/-- Matcher state: the remaining input, the character just before the
current position (for anchors and word boundaries) and the captured
groups recorded so far (innermost-latest first). -/
structure MState where
  suffix : List Char
  prev : Option Char
  caps : List (Nat × List Char)

/-- Length of the longest prefix of `l` whose characters satisfy `p`. -/
def countLeading (p : Char → Bool) : List Char → Nat
  | [] => 0
  | c :: rest => if p c then countLeading p rest + 1 else 0

/-- First success of `f` over a list of candidates, in order. -/
def firstSome : List α → (α → Option β) → Option β
  | [], _ => none
  | x :: xs, f =>
    match f x with
    | some b => some b
    | none => firstSome xs f

/-- Advance a matcher state by `n` characters. -/
def consumeN (s : MState) (n : Nat) : MState :=
  { suffix := s.suffix.drop n
    prev := if n = 0 then s.prev else (s.suffix.drop (n - 1)).head?
    caps := s.caps }

/-- Backtracking matcher in continuation-passing style.  `ml` selects
MULTILINE anchor semantics.  Alternatives try the left branch first and
greedy (resp. lazy) repetition tries the largest (resp. smallest) count
first, as in Python `re`. -/
def Regex.run (ml : Bool) : Regex → MState → (MState → Option MState) → Option MState
  | .eps, s, k => k s
  | .cls p, s, k =>
    match s.suffix with
    | [] => none
    | c :: rest => if p c then k { suffix := rest, prev := some c, caps := s.caps } else none
  | .cat a b, s, k => a.run ml s (fun s1 => b.run ml s1 k)
  | .alt a b, s, k =>
    match a.run ml s k with
    | some r => some r
    | none => b.run ml s k
  | .repCls p lo hi lazyq, s, k =>
    let maxr := countLeading p s.suffix
    let hi2 := match hi with | some h => min h maxr | none => maxr
    if hi2 < lo then none
    else
      let counts := List.range' lo (hi2 + 1 - lo)
      let ordered := if lazyq then counts else counts.reverse
      firstSome ordered (fun n => k (consumeN s n))
  | .group i r, s, k =>
    let startSuf := s.suffix
    r.run ml s (fun s1 =>
      k { s1 with caps := (i, startSuf.take (startSuf.length - s1.suffix.length)) :: s1.caps })
  | .bol, s, k =>
    match s.prev with
    | none => k s
    | some c => if ml && c = nlChar then k s else none
  | .eol, s, k =>
    if ml then
      match s.suffix with
      | [] => k s
      | c :: _ => if c = nlChar then k s else none
    else
      match s.suffix with
      | [] => k s
      | [c] => if c = nlChar then k s else none
      | _ => none
  | .wordB, s, k =>
    let a := match s.prev with | some c => isWordChar c | none => false
    let b := match s.suffix.head? with | some c => isWordChar c | none => false
    if a != b then k s else none

/-- Result of a successful search: the text of the whole match (group 0)
and the captured groups. -/
structure Found where
  matched : List Char
  caps : List (Nat × List Char)

/-- Attempt a match starting exactly at position `i` of `input`. -/
def matchAt (ml : Bool) (r : Regex) (input : List Char) (i : Nat) : Option Found :=
  let suf := input.drop i
  let pv := if i = 0 then none else (input.drop (i - 1)).head?
  (r.run ml { suffix := suf, prev := pv, caps := [] } some).map
    (fun fin => { matched := suf.take (suf.length - fin.suffix.length), caps := fin.caps })

/-- Python `re.search`: leftmost match over all start positions
(including the position after the last character). -/
def refind (ml : Bool) (r : Regex) (input : List Char) : Option Found :=
  firstSome (List.range (input.length + 1)) (matchAt ml r input)

/-- Boolean use of `re.search` on a string. -/
def reSearch (ml : Bool) (r : Regex) (s : String) : Bool :=
  (refind ml r s.data).isSome

/-- Look up a captured group by index (latest capture wins). -/
def getCap (caps : List (Nat × List Char)) (i : Nat) : Option (List Char) :=
  (caps.find? (fun x => x.1 == i)).map (fun x => x.2)

/-- Largest capturing-group index occurring in a pattern, which for the
source patterns equals the Python group count. -/
def Regex.maxGroupIdx : Regex → Nat
  | .eps => 0
  | .cls _ => 0
  | .cat a b => max a.maxGroupIdx b.maxGroupIdx
  | .alt a b => max a.maxGroupIdx b.maxGroupIdx
  | .repCls _ _ _ _ => 0
  | .group i r => max i r.maxGroupIdx
  | .bol => 0
  | .eol => 0
  | .wordB => 0

/-- Case-insensitive single character. -/
def chI (c : Char) : Regex := Regex.cls (fun x => x.toLower = c.toLower)

/-- Case-sensitive single character. -/
def chC (c : Char) : Regex := Regex.cls (fun x => x = c)

/-- Case-insensitive literal string. -/
def litI (s : String) : Regex := s.data.foldr (fun c r => Regex.cat (chI c) r) Regex.eps

/-- Case-sensitive literal string. -/
def litC (s : String) : Regex := s.data.foldr (fun c r => Regex.cat (chC c) r) Regex.eps

/-- Sequence of regexes. -/
def rs (l : List Regex) : Regex := l.foldr Regex.cat Regex.eps

/-- Alternation of a nonempty list, left to right. -/
def altList : List Regex → Regex
  | [] => Regex.cls (fun _ => false)
  | [r] => r
  | r :: rest => Regex.alt r (altList rest)

/-- Case-insensitive word alternation. -/
def wordsI (ws : List String) : Regex := altList (ws.map litI)

/-- Greedy optional. -/
def optR (r : Regex) : Regex := Regex.alt r Regex.eps

/-- Optional single case-insensitive character. -/
def optChI (c : Char) : Regex := optR (chI c)

/-- The class backslash-s-plus. -/
def spP : Regex := Regex.repCls isPyWs 1 none false

/-- The class backslash-s-star. -/
def spS : Regex := Regex.repCls isPyWs 0 none false

/-- The class backslash-w-plus. -/
def wdP : Regex := Regex.repCls isWordChar 1 none false

/-- Greedy dot-plus (as in the capture groups of the source). -/
def dotP : Regex := Regex.repCls isDotChar 1 none false

/-- Greedy dot-star. -/
def dotS : Regex := Regex.repCls isDotChar 0 none false

/-- Lazy dot-plus. -/
def dotPLazy : Regex := Regex.repCls isDotChar 1 none true

/-- Literal dot character. -/
def chDot : Regex := chC '.'

/-- The class comma-or-period, optional. -/
def optCommaDot : Regex := optR (Regex.cls (fun c => c = ',' || c = '.'))

/-- Optional comma. -/
def optComma : Regex := optR (chC ',')

/-- Apostrophe, optional (the pattern apostrophe-question-mark). -/
def optApos : Regex := optR (chC aposChar)

/-
PREFERENCE_PATTERNS from src/analysis/corrections.py: an ordered table
of (regex, type, base_confidence) triples, all case-insensitive.
The original pattern text is cited in each comment with the apostrophe
written as <ap> and braced counts written in parentheses.
-/

-- (?i)^no[,.]?\s+(.+)
def pat01 : Regex := rs [Regex.bol, litI ("no"), optCommaDot, spP, Regex.group 1 dotP]

-- (?i)^wrong[,.]?\s+(.+)
def pat02 : Regex := rs [Regex.bol, litI ("wrong"), optCommaDot, spP, Regex.group 1 dotP]

-- (?i)^incorrect[,.]?\s+(.+)
def pat03 : Regex := rs [Regex.bol, litI ("incorrect"), optCommaDot, spP, Regex.group 1 dotP]

-- (?i)^that<ap>?s?\s+not\s+(right|correct|what)
def pat04 : Regex :=
  rs [Regex.bol, litI ("that"), optApos, optChI 's', spP, litI ("not"), spP,
      Regex.group 1 (wordsI [("right"), ("correct"), ("what")])]

-- (?i)don<ap>?t\s+(.+)
def pat05 : Regex := rs [litI ("don"), optApos, chI 't', spP, Regex.group 1 dotP]

-- (?i)never\s+(.+)
def pat06 : Regex := rs [litI ("never"), spP, Regex.group 1 dotP]

-- (?i)^why\s+(didn<ap>?t|don<ap>?t)\s+you
def pat07 : Regex :=
  rs [Regex.bol, litI ("why"), spP,
      Regex.group 1 (Regex.alt (rs [litI ("didn"), optApos, chI 't'])
                               (rs [litI ("don"), optApos, chI 't'])),
      spP, litI ("you")]

-- (?i)(?:you\s+should\s+)?use\s+(\w+)(?:\s+for\s+|\s+when\s+|\s+instead)
def pat08 : Regex :=
  rs [optR (rs [litI ("you"), spP, litI ("should"), spP]),
      litI ("use"), spP, Regex.group 1 wdP,
      altList [rs [spP, litI ("for"), spP], rs [spP, litI ("when"), spP],
               rs [spP, litI ("instead")]]]

-- (?i)(?:please\s+)?use\s+(\w+)\s+(?:not|instead\s+of)\s+(\w+)
def pat09 : Regex :=
  rs [optR (rs [litI ("please"), spP]), litI ("use"), spP, Regex.group 1 wdP, spP,
      Regex.alt (litI ("not")) (rs [litI ("instead"), spP, litI ("of")]),
      spP, Regex.group 2 wdP]

-- (?i)for\s+python\s+(?:projects?\s+)?(?:you\s+should\s+)?(?:always\s+)?use\s+(\w+)
def pat10 : Regex :=
  rs [litI ("for"), spP, litI ("python"), spP,
      optR (rs [litI ("project"), optChI 's', spP]),
      optR (rs [litI ("you"), spP, litI ("should"), spP]),
      optR (rs [litI ("always"), spP]),
      litI ("use"), spP, Regex.group 1 wdP]

-- (?i)(?:always\s+)?use\s+(uv|pip|poetry|conda|npm|yarn|pnpm|bun)
def pat11 : Regex :=
  rs [optR (rs [litI ("always"), spP]), litI ("use"), spP,
      Regex.group 1 (wordsI [("uv"), ("pip"), ("poetry"), ("conda"),
                             ("npm"), ("yarn"), ("pnpm"), ("bun")])]

-- (?i)always\s+(.+)
def pat12 : Regex := rs [litI ("always"), spP, Regex.group 1 dotP]

-- (?i)make\s+sure\s+(?:to\s+|you\s+)?(.+)
def pat13 : Regex :=
  rs [litI ("make"), spP, litI ("sure"), spP,
      optR (Regex.alt (rs [litI ("to"), spP]) (rs [litI ("you"), spP])),
      Regex.group 1 dotP]

-- (?i)remember\s+to\s+(.+)
def pat14 : Regex := rs [litI ("remember"), spP, litI ("to"), spP, Regex.group 1 dotP]

-- (?i)you\s+should\s+(?:always\s+)?(.+)
def pat15 : Regex :=
  rs [litI ("you"), spP, litI ("should"), spP, optR (rs [litI ("always"), spP]),
      Regex.group 1 dotP]

-- (?i)please\s+(?:always\s+)?(.+?)(?:\s+when|\s+for|\s+before|\s+after|$)
def pat16 : Regex :=
  rs [litI ("please"), spP, optR (rs [litI ("always"), spP]),
      Regex.group 1 dotPLazy,
      altList [rs [spP, litI ("when")], rs [spP, litI ("for")],
               rs [spP, litI ("before")], rs [spP, litI ("after")], Regex.eol]]

-- (?i)(?:please\s+)?(?:also\s+)?update\s+(?:the\s+)?(readme|changelog|history|documentation|docs)
def pat17 : Regex :=
  rs [optR (rs [litI ("please"), spP]), optR (rs [litI ("also"), spP]),
      litI ("update"), spP, optR (rs [litI ("the"), spP]),
      Regex.group 1 (wordsI [("readme"), ("changelog"), ("history"),
                             ("documentation"), ("docs")])]

-- (?i)(?:please\s+)?(?:also\s+)?add\s+(?:this\s+)?(?:to\s+)?(?:the\s+)?(readme|changelog|history|documentation|docs)
def pat18 : Regex :=
  rs [optR (rs [litI ("please"), spP]), optR (rs [litI ("also"), spP]),
      litI ("add"), spP, optR (rs [litI ("this"), spP]),
      optR (rs [litI ("to"), spP]), optR (rs [litI ("the"), spP]),
      Regex.group 1 (wordsI [("readme"), ("changelog"), ("history"),
                             ("documentation"), ("docs")])]

-- (?i)(?:please\s+)?document\s+(?:this|the|your)
def pat19 : Regex :=
  rs [optR (rs [litI ("please"), spP]), litI ("document"), spP,
      altList [litI ("this"), litI ("the"), litI ("your")]]

-- (?i)(?:please\s+)?(?:also\s+)?write\s+(?:a\s+)?(?:the\s+)?(readme|documentation|docs)
def pat20 : Regex :=
  rs [optR (rs [litI ("please"), spP]), optR (rs [litI ("also"), spP]),
      litI ("write"), spP, optR (rs [litI ("a"), spP]), optR (rs [litI ("the"), spP]),
      Regex.group 1 (wordsI [("readme"), ("documentation"), ("docs")])]

-- (?i)keep\s+(?:the\s+)?(readme|changelog|documentation|docs)\s+(?:up\s+to\s+date|updated)
def pat21 : Regex :=
  rs [litI ("keep"), spP, optR (rs [litI ("the"), spP]),
      Regex.group 1 (wordsI [("readme"), ("changelog"), ("documentation"), ("docs")]),
      spP,
      Regex.alt (rs [litI ("up"), spP, litI ("to"), spP, litI ("date")]) (litI ("updated"))]

-- (?i)i\s+prefer\s+(.+)
def pat22 : Regex := rs [chI 'i', spP, litI ("prefer"), spP, Regex.group 1 dotP]

-- (?i)use\s+(.+)\s+instead(\s+of\s+.+)?
def pat23 : Regex :=
  rs [litI ("use"), spP, Regex.group 1 dotP, spP, litI ("instead"),
      optR (Regex.group 2 (rs [spP, litI ("of"), spP, dotP]))]

-- (?i)instead\s+of\s+(.+),?\s+(use|do)\s+(.+)
def pat24 : Regex :=
  rs [litI ("instead"), spP, litI ("of"), spP, Regex.group 1 dotP, optComma, spP,
      Regex.group 2 (Regex.alt (litI ("use")) (litI ("do"))), spP, Regex.group 3 dotP]

-- (?i)make\s+it\s+(more|less)\s+(.+)
def pat25 : Regex :=
  rs [litI ("make"), spP, litI ("it"), spP,
      Regex.group 1 (Regex.alt (litI ("more")) (litI ("less"))), spP, Regex.group 2 dotP]

-- (?i)too\s+(verbose|complex|long|short|simple)
def pat26 : Regex :=
  rs [litI ("too"), spP,
      Regex.group 1 (wordsI [("verbose"), ("complex"), ("long"), ("short"), ("simple")])]

-- (?i)(?:be\s+)?more\s+concise
def pat27 : Regex :=
  rs [optR (rs [litI ("be"), spP]), litI ("more"), spP, litI ("concise")]

-- (?i)^did\s+you\s+(try|check|run|test|render|update)
def pat28 : Regex :=
  rs [Regex.bol, litI ("did"), spP, litI ("you"), spP,
      Regex.group 1 (wordsI [("try"), ("check"), ("run"), ("test"), ("render"), ("update")])]

-- (?i)^can\s+you\s+(?:also|actually|please)
def pat29 : Regex :=
  rs [Regex.bol, litI ("can"), spP, litI ("you"), spP,
      altList [litI ("also"), litI ("actually"), litI ("please")]]

-- (?i)when\s+working\s+(?:with|on)\s+(\.\w+)\s+files?,?\s+(.+)
def pat30 : Regex :=
  rs [litI ("when"), spP, litI ("working"), spP,
      Regex.alt (litI ("with")) (litI ("on")), spP,
      Regex.group 1 (rs [chDot, wdP]), spP, litI ("file"), optChI 's', optComma, spP,
      Regex.group 2 dotP]

-- (?i)for\s+(\.\w+)\s+files?,?\s+(.+)
def pat31 : Regex :=
  rs [litI ("for"), spP, Regex.group 1 (rs [chDot, wdP]), spP,
      litI ("file"), optChI 's', optComma, spP, Regex.group 2 dotP]

-- (?i)in\s+(\.\w+)\s+files?,?\s+(?:always\s+)?(.+)
def pat32 : Regex :=
  rs [litI ("in"), spP, Regex.group 1 (rs [chDot, wdP]), spP,
      litI ("file"), optChI 's', optComma, spP, optR (rs [litI ("always"), spP]),
      Regex.group 2 dotP]

/-- The ordered pattern table (pattern, type, base_confidence) of the
source; `CORRECTION_PATTERNS` is a legacy alias of this table. -/
def PREFERENCE_PATTERNS : List (Regex × String × ℚ) :=
  [(pat01, "correction", mkRat 9 10), (pat02, "correction", mkRat 9 10),
   (pat03, "correction", mkRat 17 20), (pat04, "correction", mkRat 17 20),
   (pat05, "correction", mkRat 4 5), (pat06, "correction", mkRat 17 20),
   (pat07, "correction", mkRat 7 10),
   (pat08, "tool", mkRat 17 20), (pat09, "tool", mkRat 9 10), (pat10, "tool", mkRat 9 10),
   (pat11, "tool", mkRat 17 20),
   (pat12, "workflow", mkRat 17 20), (pat13, "workflow", mkRat 4 5), (pat14, "workflow", mkRat 4 5),
   (pat15, "workflow", mkRat 3 4), (pat16, "workflow", mkRat 7 10),
   (pat17, "documentation", mkRat 17 20), (pat18, "documentation", mkRat 17 20),
   (pat19, "documentation", mkRat 4 5), (pat20, "documentation", mkRat 4 5),
   (pat21, "documentation", mkRat 17 20),
   (pat22, "preference", mkRat 3 4), (pat23, "preference", mkRat 4 5), (pat24, "preference", mkRat 4 5),
   (pat25, "refinement", mkRat 3 5), (pat26, "refinement", mkRat 13 20), (pat27, "refinement", mkRat 13 20),
   (pat28, "reminder", mkRat 3 5), (pat29, "reminder", mkRat 1 2),
   (pat30, "file_specific", mkRat 4 5), (pat31, "file_specific", mkRat 3 4),
   (pat32, "file_specific", mkRat 3 4)]

/-- Legacy alias of the pattern table, as in the source. -/
def CORRECTION_PATTERNS : List (Regex × String × ℚ) := PREFERENCE_PATTERNS

/-
POSITIVE_PATTERNS from the source, all case-insensitive.
-/

-- (?i)^(perfect|great|thanks|thank\s+you|good|nice|excellent|awesome)
def pos1 : Regex :=
  rs [Regex.bol,
      Regex.group 1 (altList [litI ("perfect"), litI ("great"), litI ("thanks"),
                              rs [litI ("thank"), spP, litI ("you")],
                              litI ("good"), litI ("nice"), litI ("excellent"),
                              litI ("awesome")])]

-- (?i)^that<ap>?s?\s+(right|correct|good|perfect|great)
def pos2 : Regex :=
  rs [Regex.bol, litI ("that"), optApos, optChI 's', spP,
      Regex.group 1 (wordsI [("right"), ("correct"), ("good"), ("perfect"), ("great")])]

-- (?i)^(yes|yeah|yep|yup)[,.]?\s*(that<ap>?s?|looks?)?
def pos3 : Regex :=
  rs [Regex.bol, Regex.group 1 (wordsI [("yes"), ("yeah"), ("yep"), ("yup")]),
      optCommaDot, spS,
      optR (Regex.group 2 (Regex.alt (rs [litI ("that"), optApos, optChI 's'])
                                     (rs [litI ("look"), optChI 's'])))]

-- (?i)^exactly
def pos4 : Regex := rs [Regex.bol, litI ("exactly")]

-- (?i)^(lgtm|looks\s+good)
def pos5 : Regex :=
  rs [Regex.bol, Regex.group 1 (Regex.alt (litI ("lgtm"))
                                          (rs [litI ("looks"), spP, litI ("good")]))]

/-- The positive-feedback pattern table of the source. -/
def POSITIVE_PATTERNS : List Regex := [pos1, pos2, pos3, pos4, pos5]

/-
NOISE_INDICATORS from the source, searched with re.MULTILINE;
case-sensitive except where the original carries (?i).
-/

-- ^\d(4)-\d(2)-\d(2)
def noise01 : Regex :=
  rs [Regex.bol, Regex.repCls isDigitChar 4 (some 4) false, chC '-',
      Regex.repCls isDigitChar 2 (some 2) false, chC '-',
      Regex.repCls isDigitChar 2 (some 2) false]

-- ^[A-Z][a-z]+\s+\d(1,2),\s+\d(4)
def noise02 : Regex :=
  rs [Regex.bol, Regex.cls (fun c => 'A' ≤ c && c ≤ 'Z'),
      Regex.repCls (fun c => 'a' ≤ c && c ≤ 'z') 1 none false, spP,
      Regex.repCls isDigitChar 1 (some 2) false, chC ',', spP,
      Regex.repCls isDigitChar 4 (some 4) false]

-- ^\s*\d+\.\d+\.\d+
def noise03 : Regex :=
  rs [Regex.bol, spS, Regex.repCls isDigitChar 1 none false, chDot,
      Regex.repCls isDigitChar 1 none false, chDot,
      Regex.repCls isDigitChar 1 none false]

-- ^(Error|Warning|INFO|DEBUG|WARN):
def noise04 : Regex :=
  rs [Regex.bol,
      Regex.group 1 (altList [litC ("Error"), litC ("Warning"), litC ("INFO"),
                              litC ("DEBUG"), litC ("WARN")]),
      chC ':']

-- ^\s*(GET|POST|PUT|DELETE|PATCH)\s+/
def noise05 : Regex :=
  rs [Regex.bol, spS,
      Regex.group 1 (altList [litC ("GET"), litC ("POST"), litC ("PUT"),
                              litC ("DELETE"), litC ("PATCH")]),
      spP, chC '/']

-- Traceback \(most recent call last\)
def noise06 : Regex := litC ("Traceback (most recent call last)")

-- ^\s*at\s+\w+\.\w+\(
def noise07 : Regex :=
  rs [Regex.bol, spS, litC ("at"), spP, wdP, chDot, wdP, chC '(']

-- ^npm\s+(ERR|WARN)!
def noise08 : Regex :=
  rs [Regex.bol, litC ("npm"), spP,
      Regex.group 1 (Regex.alt (litC ("ERR")) (litC ("WARN"))), chC '!']

-- (?i)I<ap>?m\s+(?:still\s+)?getting\s+(?:a\s+)?(?:an?\s+)?(?:error|exception|\d(3))
def noise09 : Regex :=
  rs [chI 'i', optApos, chI 'm', spP, optR (rs [litI ("still"), spP]),
      litI ("getting"), spP, optR (rs [chI 'a', spP]),
      optR (rs [chI 'a', optChI 'n', spP]),
      altList [litI ("error"), litI ("exception"),
               Regex.repCls isDigitChar 3 (some 3) false]]

-- (?i)getting\s+a\s+\d(3)
def noise10 : Regex :=
  rs [litI ("getting"), spP, chI 'a', spP, Regex.repCls isDigitChar 3 (some 3) false]

-- @\w+/\w+:dev:
def noise11 : Regex := rs [chC '@', wdP, chC '/', wdP, litC (":dev:")]

-- check-mark \s+(?:Starting|Compiled|Ready)
def noise12 : Regex :=
  rs [chC (Char.ofNat 10003), spP,
      altList [litC ("Starting"), litC ("Compiled"), litC ("Ready")]]

-- white-circle \s+Compiling
def noise13 : Regex := rs [chC (Char.ofNat 9675), spP, litC ("Compiling")]

-- ^(Start|File|Edit|View|Help)\s*$
def noise14 : Regex :=
  rs [Regex.bol,
      Regex.group 1 (altList [litC ("Start"), litC ("File"), litC ("Edit"),
                              litC ("View"), litC ("Help")]),
      spS, Regex.eol]

-- ^\s*(Open|Save|Close|New)\s+(File|Folder)
def noise15 : Regex :=
  rs [Regex.bol, spS,
      Regex.group 1 (altList [litC ("Open"), litC ("Save"), litC ("Close"), litC ("New")]),
      spP, Regex.group 2 (Regex.alt (litC ("File")) (litC ("Folder")))]

-- ^Recent\s*$
def noise16 : Regex := rs [Regex.bol, litC ("Recent"), spS, Regex.eol]

-- Walkthroughs
def noise17 : Regex := litC ("Walkthroughs")

-- ^\s*\[\s*\d+\s*\]
def noise18 : Regex :=
  rs [Regex.bol, spS, chC '[', spS, Regex.repCls isDigitChar 1 none false, spS, chC ']']

-- <system-reminder>
def noise19 : Regex := litC ("<system-reminder>")

-- <ide_opened_file>
def noise20 : Regex := litC ("<ide_opened_file>")

-- <ide_selection>
def noise21 : Regex := litC ("<ide_selection>")

-- <ide_
def noise22 : Regex := litC ("<ide_")

-- <user-prompt-submit-hook>
def noise23 : Regex := litC ("<user-prompt-submit-hook>")

-- ^Base directory for this skill:
def noise24 : Regex := rs [Regex.bol, litC ("Base directory for this skill:")]

-- ^# .(50,)
def noise25 : Regex :=
  rs [Regex.bol, litC ("# "), Regex.repCls isDotChar 50 none false]

-- (Starting|Stopping)\s+Container
def noise26 : Regex :=
  rs [Regex.group 1 (Regex.alt (litC ("Starting")) (litC ("Stopping"))), spP,
      litC ("Container")]

-- Successfully\s+(built|deployed|installed)
def noise27 : Regex :=
  rs [litC ("Successfully"), spP,
      Regex.group 1 (altList [litC ("built"), litC ("deployed"), litC ("installed")])]

-- Downloading\s+\w+
def noise28 : Regex := rs [litC ("Downloading"), spP, wdP]

-- ^\s*(heavy-horizontal-bar)+
def noise29 : Regex :=
  rs [Regex.bol, spS, Regex.repCls (fun c => c = Char.ofNat 9473) 1 none false]

-- ^.(1,15)$  (a line of one to fifteen non-newline characters)
def noise30 : Regex := rs [Regex.bol, Regex.repCls isDotChar 1 (some 15) false, Regex.eol]

/-- The noise-indicator pattern table of the source (searched with
re.MULTILINE). -/
def NOISE_INDICATORS : List Regex :=
  [noise01, noise02, noise03, noise04, noise05, noise06, noise07, noise08,
   noise09, noise10, noise11, noise12, noise13, noise14, noise15, noise16,
   noise17, noise18, noise19, noise20, noise21, noise22, noise23, noise24,
   noise25, noise26, noise27, noise28, noise29, noise30]

/-
Task-request patterns from is_task_request, all case-insensitive.
-/

-- (?i)(?:can you|could you|would you|please)\s+(?:also\s+)?(?:update|add|create|write|fix|change|modify|remove|delete|run|test|check|show|make|build)
def task1 : Regex :=
  rs [altList [litI ("can you"), litI ("could you"), litI ("would you"), litI ("please")],
      spP, optR (rs [litI ("also"), spP]),
      altList [litI ("update"), litI ("add"), litI ("create"), litI ("write"),
               litI ("fix"), litI ("change"), litI ("modify"), litI ("remove"),
               litI ("delete"), litI ("run"), litI ("test"), litI ("check"),
               litI ("show"), litI ("make"), litI ("build")]]

-- (?i)(?:I need|I want|I<ap>d like)\s+(?:you\s+)?(?:to\s+)?
def task2 : Regex :=
  rs [altList [litI ("i need"), litI ("i want"),
               rs [chI 'i', chC aposChar, litI ("d like")]],
      spP, optR (rs [litI ("you"), spP]), optR (rs [litI ("to"), spP])]

-- (?i)(?:let<ap>s|lets)\s+(?:add|create|write|fix|change|modify|build|test|run|make\s+sure|check)
def task3 : Regex :=
  rs [Regex.alt (rs [litI ("let"), chC aposChar, chI 's']) (litI ("lets")), spP,
      altList [litI ("add"), litI ("create"), litI ("write"), litI ("fix"),
               litI ("change"), litI ("modify"), litI ("build"), litI ("test"),
               litI ("run"), rs [litI ("make"), spP, litI ("sure")], litI ("check")]]

-- (?i)^(?:update|add|create|write|fix|change|modify|remove|delete|run|test)\s+
def task4 : Regex :=
  rs [Regex.bol,
      altList [litI ("update"), litI ("add"), litI ("create"), litI ("write"),
               litI ("fix"), litI ("change"), litI ("modify"), litI ("remove"),
               litI ("delete"), litI ("run"), litI ("test")],
      spP]

-- (?i)write\s+this\s+as\s+
def task5 : Regex := rs [litI ("write"), spP, litI ("this"), spP, litI ("as"), spP]

-- (?i)change\s+this\s+to\s+
def task6 : Regex := rs [litI ("change"), spP, litI ("this"), spP, litI ("to"), spP]

-- (?i)make\s+this\s+
def task7 : Regex := rs [litI ("make"), spP, litI ("this"), spP]

-- (?i)make\s+sure\s+(?:this|that|it)
def task8 : Regex :=
  rs [litI ("make"), spP, litI ("sure"), spP,
      altList [litI ("this"), litI ("that"), litI ("it")]]

/-- The task-request pattern table of the source. -/
def TASK_PATTERNS : List Regex :=
  [task1, task2, task3, task4, task5, task6, task7, task8]

/-
Behavioral-preference signal patterns from is_behavioral_preference,
all case-insensitive.
-/

-- (?i)\balways\b
def behav01 : Regex := rs [Regex.wordB, litI ("always"), Regex.wordB]

-- (?i)\bnever\b
def behav02 : Regex := rs [Regex.wordB, litI ("never"), Regex.wordB]

-- (?i)\bwhen\s+working\b
def behav03 : Regex := rs [Regex.wordB, litI ("when"), spP, litI ("working"), Regex.wordB]

-- (?i)\bfor\s+\w+\s+(?:projects?|files?)\b
def behav04 : Regex :=
  rs [Regex.wordB, litI ("for"), spP, wdP, spP,
      Regex.alt (rs [litI ("project"), optChI 's']) (rs [litI ("file"), optChI 's']),
      Regex.wordB]

-- (?i)\bin\s+(?:all|every)\b
def behav05 : Regex :=
  rs [Regex.wordB, litI ("in"), spP, Regex.alt (litI ("all")) (litI ("every")), Regex.wordB]

-- (?i)\bby\s+default\b
def behav06 : Regex := rs [Regex.wordB, litI ("by"), spP, litI ("default"), Regex.wordB]

-- (?i)\bprefer\b
def behav07 : Regex := rs [Regex.wordB, litI ("prefer"), Regex.wordB]

-- (?i)\bgoing\s+forward\b
def behav08 : Regex := rs [Regex.wordB, litI ("going"), spP, litI ("forward"), Regex.wordB]

-- (?i)\bfrom\s+now\s+on\b
def behav09 : Regex :=
  rs [Regex.wordB, litI ("from"), spP, litI ("now"), spP, litI ("on"), Regex.wordB]

-- (?i)\bmake\s+sure\s+to\b
def behav10 : Regex :=
  rs [Regex.wordB, litI ("make"), spP, litI ("sure"), spP, litI ("to"), Regex.wordB]

-- (?i)\bremember\s+to\b
def behav11 : Regex := rs [Regex.wordB, litI ("remember"), spP, litI ("to"), Regex.wordB]

-- (?i)\bshould\s+(?:always|never)\b
def behav12 : Regex :=
  rs [Regex.wordB, litI ("should"), spP,
      Regex.alt (litI ("always")) (litI ("never")), Regex.wordB]

-- (?i)^(?:don<ap>?t|never)\s+\w+\s+\w+
def behav13 : Regex :=
  rs [Regex.bol,
      Regex.alt (rs [litI ("don"), optApos, chI 't']) (litI ("never")),
      spP, wdP, spP, wdP]

-- (?i)\binstead\s+of\b.*\bfor\b
def behav14 : Regex :=
  rs [Regex.wordB, litI ("instead"), spP, litI ("of"), Regex.wordB, dotS,
      Regex.wordB, litI ("for"), Regex.wordB]

/-- The behavioral-signal pattern table of the source. -/
def BEHAVIORAL_SIGNALS : List Regex :=
  [behav01, behav02, behav03, behav04, behav05, behav06, behav07, behav08,
   behav09, behav10, behav11, behav12, behav13, behav14]

/-
Negation-marker patterns from extract_correction_rule, all
case-insensitive.
-/

-- (?i)\bdon<ap>?t\s+\w+
def neg1 : Regex := rs [Regex.wordB, litI ("don"), optApos, chI 't', spP, wdP]

-- (?i)\bnever\s+\w+
def neg2 : Regex := rs [Regex.wordB, litI ("never"), spP, wdP]

-- (?i)\bno\s+need\b
def neg3 : Regex := rs [Regex.wordB, litI ("no"), spP, litI ("need"), Regex.wordB]

-- (?i)\bnot\s+\w+
def neg4 : Regex := rs [Regex.wordB, litI ("not"), spP, wdP]

-- (?i)\bavoid\s+\w+
def neg5 : Regex := rs [Regex.wordB, litI ("avoid"), spP, wdP]

/-- The negation-marker pattern table of the source. -/
def NEGATION_PATTERNS : List Regex := [neg1, neg2, neg3, neg4, neg5]

/-
File-reference patterns from extract_file_reference.
-/

-- \.(\w(1,10))\b   (case-sensitive)
def fileExtRe : Regex :=
  rs [chDot, Regex.group 1 (Regex.repCls isWordChar 1 (some 10) false), Regex.wordB]

-- (?i)\b(python|py)\b
def ftype1 : Regex :=
  rs [Regex.wordB, Regex.group 1 (Regex.alt (litI ("python")) (litI ("py"))), Regex.wordB]

-- (?i)\b(typescript|ts)\b
def ftype2 : Regex :=
  rs [Regex.wordB, Regex.group 1 (Regex.alt (litI ("typescript")) (litI ("ts"))), Regex.wordB]

-- (?i)\b(javascript|js)\b
def ftype3 : Regex :=
  rs [Regex.wordB, Regex.group 1 (Regex.alt (litI ("javascript")) (litI ("js"))), Regex.wordB]

-- (?i)\b(quarto|qmd)\b
def ftype4 : Regex :=
  rs [Regex.wordB, Regex.group 1 (Regex.alt (litI ("quarto")) (litI ("qmd"))), Regex.wordB]

-- (?i)\b(r\s+files?|\.r\b)
def ftype5 : Regex :=
  rs [Regex.wordB,
      Regex.group 1 (Regex.alt (rs [chI 'r', spP, litI ("file"), optChI 's'])
                               (rs [chDot, chI 'r', Regex.wordB]))]

-- (?i)\b(markdown|md)\b
def ftype6 : Regex :=
  rs [Regex.wordB, Regex.group 1 (Regex.alt (litI ("markdown")) (litI ("md"))), Regex.wordB]

-- (?i)\b(rust|rs)\b
def ftype7 : Regex :=
  rs [Regex.wordB, Regex.group 1 (Regex.alt (litI ("rust")) (litI ("rs"))), Regex.wordB]

-- (?i)\b(go|golang)\b
def ftype8 : Regex :=
  rs [Regex.wordB, Regex.group 1 (Regex.alt (litI ("go")) (litI ("golang"))), Regex.wordB]

/-- The file-type pattern table (pattern, extension) of the source. -/
def FILE_TYPE_PATTERNS : List (Regex × String) :=
  [(ftype1, ".py"), (ftype2, ".ts"), (ftype3, ".js"), (ftype4, ".qmd"),
   (ftype5, ".R"), (ftype6, ".md"), (ftype7, ".rs"), (ftype8, ".go")]

/-- is_positive_feedback from the source: any positive pattern matching
the stripped message. -/
def is_positive_feedback (text : String) : Bool :=
  POSITIVE_PATTERNS.any (fun p => reSearch false p (pyStrip text))

/-- Count of special characters, as in is_noise_content: members of the
set braces, square brackets, parens, angle brackets, pipe, ampersand,
semicolon, dollar, backtick, backslash. -/
def specialCount (cs : List Char) : Nat :=
  (cs.filter (fun c =>
    c = lbraceChar || c = rbraceChar || c = '[' || c = ']' || c = '(' || c = ')' ||
    c = '<' || c = '>' || c = '|' || c = '&' || c = ';' || c = '$' ||
    c = btickChar || c = bslashChar)).length

/-- is_noise_content from the source: long messages, any noise-indicator
match (MULTILINE), high special-character density, or many newlines.
The Python float division in the density test is modelled exactly in the
rationals. -/
def is_noise_content (text : String) : Bool :=
  if text.length > 1000 then true
  else if NOISE_INDICATORS.any (fun p => reSearch true p text) then true
  else if text.length > 50 ∧ mkRat 3 20 < mkRat (specialCount text.data) text.length then true
  else if text.data.count nlChar > 10 then true
  else false

/-- is_task_request from the source. -/
def is_task_request (text : String) : Bool :=
  TASK_PATTERNS.any (fun p => reSearch false p text)

/-- is_behavioral_preference from the source: not a question, at least
twenty characters once stripped, and at least one behavioral signal. -/
def is_behavioral_preference (text : String) : Bool :=
  if (pyStrip text).data.getLast? = some '?' then false
  else if (pyStrip text).length < 20 then false
  else BEHAVIORAL_SIGNALS.any (fun p => reSearch false p text)

/-- Negation-clause loop of extract_correction_rule for messages of 200
characters or more: search each negation pattern extended by a run of
non-sentence-ending characters and return the stripped clause when it
is longer than fifteen characters. -/
def negClauseLoop (text : String) : List Regex → Option String
  | [] => none
  | p :: rest =>
    match refind false (Regex.cat p (Regex.repCls (fun c => !(c = '.' || c = '!' || c = '?')) 0 none false)) text.data with
    | some f =>
      if f.matched.length > 15 then some (pyStrip (String.mk f.matched))
      else negClauseLoop text rest
    | none => negClauseLoop text rest

/-- First captured group longer than fifteen characters, scanning group
indices in order and skipping non-participating groups, as the inner
loop over match.groups() does. -/
def firstLongGroup (caps : List (Nat × List Char)) : List Nat → Option (List Char)
  | [] => none
  | i :: rest =>
    match getCap caps i with
    | some g => if g.length > 15 then some g else firstLongGroup caps rest
    | none => firstLongGroup caps rest

/-- Pattern-table loop of extract_correction_rule for non-negation text:
for the patterns in order, on a match inspect the capture groups; return
the first group longer than fifteen characters stripped; with capture
groups but none long enough, return the whole text when it is under 200
characters and otherwise nothing; with no capture groups in the pattern,
continue; after the loop, return the whole text when it is under 200
characters. -/
def extractLoop (text : String) : List (Regex × String × ℚ) → Option String
  | [] => if text.length < 200 then some text else none
  | (re, _, _) :: rest =>
    match refind false re text.data with
    | none => extractLoop text rest
    | some f =>
      let n := re.maxGroupIdx
      if n = 0 then extractLoop text rest
      else
        match firstLongGroup f.caps (List.range' 1 n) with
        | some g => some (pyStrip (String.mk g))
        | none => if text.length < 200 then some text else none

/-- extract_correction_rule from the source. -/
def extract_correction_rule (user_message : String) : Option String :=
  let text := pyStrip user_message
  if is_task_request text then none
  else if !(is_behavioral_preference text) then none
  else
    let has_negation := NEGATION_PATTERNS.any (fun p => reSearch false p text)
    if has_negation then
      if text.length < 200 then some text
      else negClauseLoop text NEGATION_PATTERNS
    else extractLoop text CORRECTION_PATTERNS

/-- Loop over the file-type name table of extract_file_reference. -/
def fileTypeLoop (text : String) : List (Regex × String) → Option String
  | [] => none
  | (p, ext) :: rest => if reSearch false p text then some ext else fileTypeLoop text rest

/-- extract_file_reference from the source: a literal dot-extension
match wins, else the first file-type name pattern. -/
def extract_file_reference (text : String) : Option String :=
  match refind false fileExtRe text.data with
  | some f =>
    match getCap f.caps 1 with
    | some g => some ("." ++ String.mk g)
    | none => none
  | none => fileTypeLoop text FILE_TYPE_PATTERNS

/-- A conversation message row (id, role, content, timestamp,
parent_uuid) as returned by the message query. -/
structure Msg where
  id : String
  role : String
  content : String
  timestamp : String
  parent_uuid : Option String
deriving DecidableEq, Repr

/-- DetectedCorrection from the source. -/
structure DetectedCorrection where
  id : String
  message_id : String
  target_msg_id : Option String
  correction_type : String
  user_message : String
  assistant_message : Option String
  extracted_rule : Option String
  confidence : ℚ
  conversation_id : String
  project_path : String
  timestamp : String
  file_touched : Option String
deriving DecidableEq, Repr

/-- Body of the inner pattern loop of
detect_corrections_in_conversation: the first pattern that matches the
message and for which a truthy rule is extracted produces the detection
record, with the confidence boosts and the 0.65 cap of the source. -/
def patternLoop (fresh : Nat → String) (cid pp : String) (k : Nat) (m : Msg)
    (prev : Option Msg) : List (Regex × String × ℚ) → Option DetectedCorrection
  | [] => none
  | (re, ctype, base) :: rest =>
    if (refind false re m.content.data).isSome then
      match extract_correction_rule m.content with
      | some rule =>
        if rule = "" then patternLoop fresh cid pp k m prev rest
        else
          let file_touched := extract_file_reference m.content
          let confidence :=
            qadd (qadd base (if prev.isSome then mkRat 1 20 else 0))
                 (if strOptTruthy file_touched then mkRat 1 20 else 0)
          let confidence := qmin confidence (mkRat 13 20)
          some { id := fresh k
                 message_id := m.id
                 target_msg_id := prev.map Msg.id
                 correction_type := ctype
                 user_message := m.content
                 assistant_message := prev.map Msg.content
                 extracted_rule := some rule
                 confidence := qmin confidence 1
                 conversation_id := cid
                 project_path := pp
                 timestamp := m.timestamp
                 file_touched := file_touched }
      | none => patternLoop fresh cid pp k m prev rest
    else patternLoop fresh cid pp k m prev rest

/-- Message loop of detect_corrections_in_conversation: assistant
messages update the previous-assistant context, other non-user roles are
skipped, positive-feedback and noise user messages are dropped, and one
detection at most is produced per user message; the previous-assistant
context is reset after every processed user message. -/
def detectLoop (fresh : Nat → String) (cid pp : String) :
    Nat → Option Msg → List Msg → List DetectedCorrection
  | _, _, [] => []
  | k, prev, m :: rest =>
    if m.role = "assistant" then detectLoop fresh cid pp k (some m) rest
    else if m.role ≠ "user" then detectLoop fresh cid pp k prev rest
    else if is_positive_feedback m.content then detectLoop fresh cid pp k none rest
    else if is_noise_content m.content then detectLoop fresh cid pp k none rest
    else
      match patternLoop fresh cid pp k m prev PREFERENCE_PATTERNS with
      | some det => det :: detectLoop fresh cid pp (k + 1) none rest
      | none => detectLoop fresh cid pp k none rest

/-- detect_corrections_in_conversation from the source, with the two
database queries modelled by the `pp` (project path) and `messages`
(timestamp-ordered rows) arguments and uuid4 modelled by `fresh`. -/
def detect_corrections_in_conversation (fresh : Nat → String) (cid pp : String)
    (messages : List Msg) : List DetectedCorrection :=
  detectLoop fresh cid pp 0 none messages

/-- An evidence entry: the dict with keys conversation_id, message,
timestamp, project_path built by extract_preference_from_correction;
dict `.get` with a default is modelled by field access, every entry in
the core carrying all four keys. -/
structure Evidence where
  conversation_id : String
  message : String
  timestamp : String
  project_path : String
deriving DecidableEq, Repr

/-- Preference from src/analysis/preferences.py. -/
structure Preference where
  id : String
  file_extension : Option String
  category : String
  preference_key : String
  preference_value : String
  evidence : List Evidence
  occurrence_count : Nat
  confidence : ℚ
  first_seen : String
  last_seen : String
deriving DecidableEq, Repr

/-
PREFERENCE_CATEGORIES from the source, in insertion order.
-/

-- (?i)(format|style|indent|spacing|whitespace|line\s*length)
def catFmt1 : Regex :=
  Regex.group 1 (altList [litI ("format"), litI ("style"), litI ("indent"),
                          litI ("spacing"), litI ("whitespace"),
                          rs [litI ("line"), spS, litI ("length")]])

-- (?i)(pipe|operator|symbol)
def catFmt2 : Regex :=
  Regex.group 1 (altList [litI ("pipe"), litI ("operator"), litI ("symbol")])

-- (?i)(quote|string|apostrophe)
def catFmt3 : Regex :=
  Regex.group 1 (altList [litI ("quote"), litI ("string"), litI ("apostrophe")])

-- (?i)(structure|organize|order|layout|arrange)
def catStr1 : Regex :=
  Regex.group 1 (altList [litI ("structure"), litI ("organize"), litI ("order"),
                          litI ("layout"), litI ("arrange")])

-- (?i)(header|section|comment|docstring)
def catStr2 : Regex :=
  Regex.group 1 (altList [litI ("header"), litI ("section"), litI ("comment"),
                          litI ("docstring")])

-- (?i)(import|export|module)
def catStr3 : Regex :=
  Regex.group 1 (altList [litI ("import"), litI ("export"), litI ("module")])

-- (?i)(pattern|approach|method|technique|way)
def catPat1 : Regex :=
  Regex.group 1 (altList [litI ("pattern"), litI ("approach"), litI ("method"),
                          litI ("technique"), litI ("way")])

-- (?i)(error\s*handling|validation|check)
def catPat2 : Regex :=
  Regex.group 1 (altList [rs [litI ("error"), spS, litI ("handling")],
                          litI ("validation"), litI ("check")])

-- (?i)(naming|convention|variable)
def catPat3 : Regex :=
  Regex.group 1 (altList [litI ("naming"), litI ("convention"), litI ("variable")])

-- (?i)(test|build|run|render|compile|deploy)
def catWfl1 : Regex :=
  Regex.group 1 (altList [litI ("test"), litI ("build"), litI ("run"),
                          litI ("render"), litI ("compile"), litI ("deploy")])

-- (?i)(commit|git|branch|merge)
def catWfl2 : Regex :=
  Regex.group 1 (altList [litI ("commit"), litI ("git"), litI ("branch"), litI ("merge")])

-- (?i)(step|process|workflow|procedure)
def catWfl3 : Regex :=
  Regex.group 1 (altList [litI ("step"), litI ("process"), litI ("workflow"),
                          litI ("procedure")])

-- (?i)(verbose|concise|brief|detailed)
def catCom1 : Regex :=
  Regex.group 1 (altList [litI ("verbose"), litI ("concise"), litI ("brief"),
                          litI ("detailed")])

-- (?i)(explain|describe|comment)
def catCom2 : Regex :=
  Regex.group 1 (altList [litI ("explain"), litI ("describe"), litI ("comment")])

-- (?i)(emoji|formatting|markdown)
def catCom3 : Regex :=
  Regex.group 1 (altList [litI ("emoji"), litI ("formatting"), litI ("markdown")])

/-- PREFERENCE_CATEGORIES as an ordered association list (Python dicts
preserve insertion order). -/
def PREFERENCE_CATEGORIES : List (String × List Regex) :=
  [("formatting", [catFmt1, catFmt2, catFmt3]),
   ("structure", [catStr1, catStr2, catStr3]),
   ("patterns", [catPat1, catPat2, catPat3]),
   ("workflow", [catWfl1, catWfl2, catWfl3]),
   ("communication", [catCom1, catCom2, catCom3])]

/-- Loop of categorize_preference over the ordered category table. -/
def catLoop (t : String) : List (String × List Regex) → String
  | [] => "patterns"
  | (cat, ps) :: rest =>
    if ps.any (fun p => reSearch false p t) then cat else catLoop t rest

/-- categorize_preference from the source: first category whose pattern
matches the lower-cased text, defaulting to patterns. -/
def categorize_preference (text : String) : String :=
  catLoop (pyLower text) PREFERENCE_CATEGORIES

/-- The fixed leading filler prefixes stripped by
generate_preference_key. -/
def KEY_PREFIXES : List String :=
  [("please "), ("always "), ("never "), ("don" ++ aposS ++ "t "), ("do not ")]

/-- Strip the first matching prefix only, as the break in the source
loop does. -/
def stripFirstPrefixOf (s : String) : List String → String
  | [] => s
  | p :: rest =>
    if p.data.isPrefixOf s.data then String.mk (s.data.drop p.data.length)
    else stripFirstPrefixOf s rest

/-- generate_preference_key from the source: lower-case and strip, drop
one leading filler prefix, truncate to 100 then 50 characters, and
prepend a truthy file extension with a colon. -/
def generate_preference_key (text : String) (file_ext : Option String) : String :=
  let normalized := pyStrip (pyLower text)
  let normalized := stripFirstPrefixOf normalized KEY_PREFIXES
  let normalized := String.mk (normalized.data.take 100)
  if strOptTruthy file_ext then
    file_ext.getD "" ++ ":" ++ String.mk (normalized.data.take 50)
  else String.mk (normalized.data.take 50)

/-- extract_preference_from_correction from the source; uuid4 is
modelled by the `fid` argument. -/
def extract_preference_from_correction (fid : String) (c : DetectedCorrection) :
    Option Preference :=
  match c.extracted_rule with
  | none => none
  | some rule =>
    if rule = "" then none
    else
      let file_ext := c.file_touched
      let category := categorize_preference rule
      let pref_key := generate_preference_key rule file_ext
      some { id := fid
             file_extension := file_ext
             category := category
             preference_key := pref_key
             preference_value := rule
             evidence := [{ conversation_id := c.conversation_id
                            message := c.user_message
                            timestamp := c.timestamp
                            project_path := c.project_path }]
             occurrence_count := 1
             confidence := c.confidence
             first_seen := c.timestamp
             last_seen := c.timestamp }

/-- The non-empty timestamps of the combined (pre-truncation) evidence
of a merge, in order, as collected by merge_preferences. -/
def mergeTimestamps (existing new : Preference) : List String :=
  ((existing.evidence ++ new.evidence).filter (fun e => !(e.timestamp = ""))).map
    (fun e => e.timestamp)

/-- merge_preferences from the source.  Python list slicing with -10
is `drop (length - 10)`; Python min/max over a list of strings is a
fold of the lexicographic min/max over code points. -/
def merge_preferences (existing new : Preference) : Preference :=
  let combined_evidence := existing.evidence ++ new.evidence
  let timestamps := mergeTimestamps existing new
  let first_seen := match timestamps with
    | [] => existing.first_seen
    | t :: ts => ts.foldl smin t
  let last_seen := match timestamps with
    | [] => new.last_seen
    | t :: ts => ts.foldl smax t
  let occurrence_count := existing.occurrence_count + 1
  let base_confidence := qmax existing.confidence new.confidence
  let repetition_boost := qmin (qmul (occurrence_count : ℚ) (mkRat 1 10)) (mkRat 2 5)
  let confidence := qmin (qadd base_confidence repetition_boost) 1
  { id := existing.id
    file_extension := if strOptTruthy existing.file_extension then existing.file_extension
                      else new.file_extension
    category := existing.category
    preference_key := existing.preference_key
    preference_value := existing.preference_value
    evidence := combined_evidence.drop (combined_evidence.length - 10)
    occurrence_count := occurrence_count
    confidence := confidence
    first_seen := first_seen
    last_seen := last_seen }

/-
Bridge lemmas: the kernel-friendly arithmetic equals the standard
operations.
-/

/-- qadd is rational addition. -/
theorem qadd_eq_add (a b : ℚ) : qadd a b = a + b := (Rat.add_def' a b).symm

/-- qmul is rational multiplication. -/
theorem qmul_eq_mul (a b : ℚ) : qmul a b = a * b := by
  rw [qmul, ← Rat.normalize_eq_mkRat (Nat.mul_ne_zero a.den_nz b.den_nz), ← Rat.mul_def]

/-- qmin is the rational minimum. -/
theorem qmin_eq_min (a b : ℚ) : qmin a b = min a b := by
  unfold qmin
  split
  · exact (min_eq_left (by assumption)).symm
  · exact (min_eq_right (le_of_not_le (by assumption))).symm

/-- qmax is the rational maximum. -/
theorem qmax_eq_max (a b : ℚ) : qmax a b = max a b := by
  unfold qmax
  split
  · exact (max_eq_right (by assumption)).symm
  · exact (max_eq_left (le_of_not_le (by assumption))).symm

/-- The fraction constants used for the source decimals. -/
theorem mkRat_1_20 : mkRat 1 20 = (1/20 : ℚ) := by
  rw [Rat.mkRat_eq_div]; norm_num

/-- The 0.65 cap as a fraction. -/
theorem mkRat_13_20 : mkRat 13 20 = (13/20 : ℚ) := by
  rw [Rat.mkRat_eq_div]; norm_num

/-- The 0.1 step as a fraction. -/
theorem mkRat_1_10 : mkRat 1 10 = (1/10 : ℚ) := by
  rw [Rat.mkRat_eq_div]; norm_num

/-- The 0.4 boost cap as a fraction. -/
theorem mkRat_2_5 : mkRat 2 5 = (2/5 : ℚ) := by
  rw [Rat.mkRat_eq_div]; norm_num

/-- The 0.5 base confidence as a fraction. -/
theorem mkRat_1_2 : mkRat 1 2 = (1/2 : ℚ) := by
  rw [Rat.mkRat_eq_div]; norm_num

/-- The confidence computed by one merge step, in standard operations. -/
theorem merge_confidence_def (e n : Preference) :
    (merge_preferences e n).confidence =
      min (max e.confidence n.confidence +
        min (((e.occurrence_count + 1 : ℕ) : ℚ) * (1/10)) (2/5)) 1 := by
  show qmin (qadd (qmax e.confidence n.confidence)
      (qmin (qmul ((e.occurrence_count + 1 : ℕ) : ℚ) (mkRat 1 10)) (mkRat 2 5))) 1 = _
  rw [qmin_eq_min, qadd_eq_add, qmax_eq_max, qmin_eq_min, qmul_eq_mul, mkRat_1_10, mkRat_2_5]

/-- The merged confidence never exceeds one. -/
theorem merge_conf_le_one (e n : Preference) : (merge_preferences e n).confidence ≤ 1 := by
  rw [merge_confidence_def]; exact min_le_right _ _

/-- One merge step adds at most two fifths on top of the larger input
confidence. -/
theorem merge_conf_le_add (e n : Preference) :
    (merge_preferences e n).confidence ≤ max e.confidence n.confidence + 2/5 := by
  rw [merge_confidence_def]
  exact le_trans (min_le_left _ _) (add_le_add_left (min_le_right _ _) _)

/-- The repetition boost is nonnegative. -/
theorem merge_boost_nonneg (e : Preference) :
    (0:ℚ) ≤ min (((e.occurrence_count + 1 : ℕ) : ℚ) * (1/10)) (2/5) :=
  le_min (mul_nonneg (Nat.cast_nonneg _) (by norm_num)) (by norm_num)

/-- Reflexivity of the lexicographic order. -/
theorem lexLe_refl (l : List Char) : lexLeChars l l = true := by
  induction l with
  | nil => rfl
  | cons a as ih => simp [lexLeChars, Nat.lt_irrefl, ih]

/-- Totality of the lexicographic order. -/
theorem lexLe_total (a b : List Char) : lexLeChars a b = true ∨ lexLeChars b a = true := by
  induction a generalizing b with
  | nil => left; rfl
  | cons x xs ih =>
    cases b with
    | nil => right; rfl
    | cons y ys =>
      rcases Nat.lt_trichotomy x.toNat y.toNat with h | h | h
      · left; simp [lexLeChars, h]
      · have hn : ¬ x.toNat < y.toNat := by omega
        have hn2 : ¬ y.toNat < x.toNat := by omega
        rcases ih ys with h2 | h2
        · left; simp [lexLeChars, hn, hn2, h2]
        · right; simp [lexLeChars, hn, hn2, h2]
      · right; simp [lexLeChars, h]

/-- Transitivity of the lexicographic order. -/
theorem lexLe_trans {a b c : List Char} (h1 : lexLeChars a b = true)
    (h2 : lexLeChars b c = true) : lexLeChars a c = true := by
  induction a generalizing b c with
  | nil => rfl
  | cons x xs ih =>
    cases b with
    | nil => simp [lexLeChars] at h1
    | cons y ys =>
      cases c with
      | nil => simp [lexLeChars] at h2
      | cons z zs =>
        by_cases hxy : x.toNat < y.toNat
        · by_cases hyz : y.toNat < z.toNat
          · simp [lexLeChars, Nat.lt_trans hxy hyz]
          · by_cases hzy : z.toNat < y.toNat
            · simp [lexLeChars, hyz, hzy] at h2
            · have : x.toNat < z.toNat := by omega
              simp [lexLeChars, this]
        · by_cases hyx : y.toNat < x.toNat
          · simp [lexLeChars, hxy, hyx] at h1
          · by_cases hyz : y.toNat < z.toNat
            · have : x.toNat < z.toNat := by omega
              simp [lexLeChars, this]
            · by_cases hzy : z.toNat < y.toNat
              · simp [lexLeChars, hyz, hzy] at h2
              · have h1s : lexLeChars xs ys = true := by
                  simpa [lexLeChars, hxy, hyx] using h1
                have h2s : lexLeChars ys zs = true := by
                  simpa [lexLeChars, hyz, hzy] using h2
                have hxz : ¬ x.toNat < z.toNat := by omega
                have hzx : ¬ z.toNat < x.toNat := by omega
                simp [lexLeChars, hxz, hzx, ih h1s h2s]

/-- The string minimum is one of its arguments and below both. -/
theorem smin_le_left (a b : String) : lexLeChars (smin a b).data a.data = true := by
  unfold smin; split
  · exact lexLe_refl _
  · rcases lexLe_total a.data b.data with h | h
    · exact absurd h (by assumption)
    · exact h

/-- The string minimum is below its right argument. -/
theorem smin_le_right (a b : String) : lexLeChars (smin a b).data b.data = true := by
  unfold smin; split
  · assumption
  · exact lexLe_refl _

/-- The string maximum is above its left argument. -/
theorem smax_ge_left (a b : String) : lexLeChars a.data (smax a b).data = true := by
  unfold smax; split
  · assumption
  · exact lexLe_refl _

/-- The string maximum is above its right argument. -/
theorem smax_ge_right (a b : String) : lexLeChars b.data (smax a b).data = true := by
  unfold smax; split
  · exact lexLe_refl _
  · rcases lexLe_total a.data b.data with h | h
    · exact absurd h (by assumption)
    · exact h

/-- A fold of the string minimum is one of the folded strings. -/
theorem foldl_smin_mem (t : String) (l : List String) : l.foldl smin t ∈ t :: l := by
  induction l generalizing t with
  | nil => simp [List.foldl]
  | cons u us ih =>
    have h := ih (smin t u)
    simp only [List.foldl]
    rcases List.mem_cons.mp h with h | h
    · rw [h]
      unfold smin
      split
      · exact List.mem_cons_self _ _
      · exact List.mem_cons_of_mem _ (List.mem_cons_self _ _)
    · exact List.mem_cons_of_mem _ (List.mem_cons_of_mem _ h)

/-- A fold of the string minimum is below every folded string. -/
theorem foldl_smin_le (t : String) (l : List String) :
    ∀ u ∈ t :: l, lexLeChars (l.foldl smin t).data u.data = true := by
  induction l generalizing t with
  | nil =>
    intro u hu
    rcases List.mem_cons.mp hu with h | h
    · subst h; exact lexLe_refl _
    · simp at h
  | cons v vs ih =>
    intro u hu
    simp only [List.foldl]
    have hfold := ih (smin t v)
    have hle_min : lexLeChars (vs.foldl smin (smin t v)).data (smin t v).data = true :=
      hfold _ (List.mem_cons_self _ _)
    rcases List.mem_cons.mp hu with h | h
    · subst h
      exact lexLe_trans hle_min (smin_le_left _ _)
    · rcases List.mem_cons.mp h with h2 | h2
      · subst h2
        exact lexLe_trans hle_min (smin_le_right _ _)
      · exact hfold _ (List.mem_cons_of_mem _ h2)

/-- A fold of the string maximum is one of the folded strings. -/
theorem foldl_smax_mem (t : String) (l : List String) : l.foldl smax t ∈ t :: l := by
  induction l generalizing t with
  | nil => simp [List.foldl]
  | cons u us ih =>
    have h := ih (smax t u)
    simp only [List.foldl]
    rcases List.mem_cons.mp h with h | h
    · rw [h]
      unfold smax
      split
      · exact List.mem_cons_of_mem _ (List.mem_cons_self _ _)
      · exact List.mem_cons_self _ _
    · exact List.mem_cons_of_mem _ (List.mem_cons_of_mem _ h)

/-- A fold of the string maximum is above every folded string. -/
theorem foldl_smax_ge (t : String) (l : List String) :
    ∀ u ∈ t :: l, lexLeChars u.data (l.foldl smax t).data = true := by
  induction l generalizing t with
  | nil =>
    intro u hu
    rcases List.mem_cons.mp hu with h | h
    · subst h; exact lexLe_refl _
    · simp at h
  | cons v vs ih =>
    intro u hu
    simp only [List.foldl]
    have hfold := ih (smax t v)
    have hge_max : lexLeChars (smax t v).data (vs.foldl smax (smax t v)).data = true :=
      hfold _ (List.mem_cons_self _ _)
    rcases List.mem_cons.mp hu with h | h
    · subst h
      exact lexLe_trans (smax_ge_left _ _) hge_max
    · rcases List.mem_cons.mp h with h2 | h2
      · subst h2
        exact lexLe_trans (smax_ge_right _ _) hge_max
      · exact hfold _ (List.mem_cons_of_mem _ h2)

/-- The first_seen field of a merge, by definition. -/
theorem merge_first_seen_def (e n : Preference) :
    (merge_preferences e n).first_seen =
      (match mergeTimestamps e n with
       | [] => e.first_seen
       | t :: ts => ts.foldl smin t) := rfl

/-- The last_seen field of a merge, by definition. -/
theorem merge_last_seen_def (e n : Preference) :
    (merge_preferences e n).last_seen =
      (match mergeTimestamps e n with
       | [] => n.last_seen
       | t :: ts => ts.foldl smax t) := rfl

/-- C4: one merge step increments occurrence_count, computes the new
confidence as min(1.0, max(existing.confidence, new.confidence) +
min(occurrence_count' * 0.1, 0.4)), and, when the existing confidence is
at most one, never decreases it. -/
theorem C4_merge_step (existing new : Preference) (hnew : new.occurrence_count = 1) :
    (merge_preferences existing new).occurrence_count = existing.occurrence_count + 1 ∧
    (merge_preferences existing new).confidence =
      min 1 (max existing.confidence new.confidence +
        min (((existing.occurrence_count + 1 : ℕ) : ℚ) * (1/10)) (2/5)) ∧
    (existing.confidence ≤ 1 →
      existing.confidence ≤ (merge_preferences existing new).confidence) := by
  refine ⟨rfl, ?_, ?_⟩
  · rw [merge_confidence_def, min_comm]
  · intro h1
    rw [merge_confidence_def]
    refine le_min ?_ h1
    calc existing.confidence ≤ max existing.confidence new.confidence := le_max_left _ _
      _ ≤ _ := le_add_of_nonneg_right (merge_boost_nonneg existing)

/-- A sample evidence entry with the given timestamp. -/
def mkEv (ts : String) : Evidence :=
  { conversation_id := "c", message := "m", timestamp := ts, project_path := "/p" }

/-- A sample single-observation preference with the given confidence and
timestamp. -/
def mkPref (c : ℚ) (ts : String) : Preference :=
  { id := "p", file_extension := none, category := "patterns", preference_key := "k",
    preference_value := "v", evidence := [mkEv ts], occurrence_count := 1,
    confidence := c, first_seen := ts, last_seen := ts }

/-- Witness for C4 at a concrete pair of preferences. -/
theorem C4_merge_step_witness :
    (merge_preferences (mkPref (mkRat 1 2) ("t1")) (mkPref (mkRat 3 5) ("t2"))).occurrence_count
        = (mkPref (mkRat 1 2) ("t1")).occurrence_count + 1 ∧
    (merge_preferences (mkPref (mkRat 1 2) ("t1")) (mkPref (mkRat 3 5) ("t2"))).confidence =
      min 1 (max (mkPref (mkRat 1 2) ("t1")).confidence (mkPref (mkRat 3 5) ("t2")).confidence +
        min ((((mkPref (mkRat 1 2) ("t1")).occurrence_count + 1 : ℕ) : ℚ) * (1/10)) (2/5)) ∧
    ((mkPref (mkRat 1 2) ("t1")).confidence ≤ 1 →
      (mkPref (mkRat 1 2) ("t1")).confidence ≤
        (merge_preferences (mkPref (mkRat 1 2) ("t1")) (mkPref (mkRat 3 5) ("t2"))).confidence) :=
  C4_merge_step (mkPref (mkRat 1 2) ("t1")) (mkPref (mkRat 3 5) ("t2")) (by decide)

/-- C5: the merged evidence is the concatenation of existing and new
evidence truncated to its last ten entries: its length is at most ten,
it is a suffix of the concatenation (insertion order kept, oldest
entries dropped from the front), it is the whole concatenation when that
fits, and exactly ten entries survive otherwise. -/
theorem C5_evidence_bound (existing new : Preference) :
    (merge_preferences existing new).evidence.length ≤ 10 ∧
    (merge_preferences existing new).evidence <:+ (existing.evidence ++ new.evidence) ∧
    ((existing.evidence ++ new.evidence).length ≤ 10 →
      (merge_preferences existing new).evidence = existing.evidence ++ new.evidence) ∧
    (10 ≤ (existing.evidence ++ new.evidence).length →
      (merge_preferences existing new).evidence.length = 10) := by
  have he : (merge_preferences existing new).evidence =
      (existing.evidence ++ new.evidence).drop
        ((existing.evidence ++ new.evidence).length - 10) := rfl
  refine ⟨?_, ?_, ?_, ?_⟩
  · rw [he, List.length_drop]; omega
  · rw [he]; exact ⟨_, List.take_append_drop _ _⟩
  · intro h
    rw [he, Nat.sub_eq_zero_of_le h, List.drop_zero]
  · intro h
    rw [he, List.length_drop]; omega

/-- Witness for C5 at a concrete pair of preferences. -/
theorem C5_evidence_bound_witness :
    (merge_preferences (mkPref (mkRat 1 2) ("t1")) (mkPref (mkRat 1 2) ("t2"))).evidence.length ≤ 10 ∧
    (merge_preferences (mkPref (mkRat 1 2) ("t1")) (mkPref (mkRat 1 2) ("t2"))).evidence <:+
      ((mkPref (mkRat 1 2) ("t1")).evidence ++ (mkPref (mkRat 1 2) ("t2")).evidence) ∧
    (((mkPref (mkRat 1 2) ("t1")).evidence ++ (mkPref (mkRat 1 2) ("t2")).evidence).length ≤ 10 →
      (merge_preferences (mkPref (mkRat 1 2) ("t1")) (mkPref (mkRat 1 2) ("t2"))).evidence =
        (mkPref (mkRat 1 2) ("t1")).evidence ++ (mkPref (mkRat 1 2) ("t2")).evidence) ∧
    (10 ≤ ((mkPref (mkRat 1 2) ("t1")).evidence ++ (mkPref (mkRat 1 2) ("t2")).evidence).length →
      (merge_preferences (mkPref (mkRat 1 2) ("t1")) (mkPref (mkRat 1 2) ("t2"))).evidence.length = 10) :=
  C5_evidence_bound (mkPref (mkRat 1 2) ("t1")) (mkPref (mkRat 1 2) ("t2"))

/-- C7: a merge step keeps the identity and wording of the existing
record: id, category, preference_key and preference_value are returned
unchanged, and a truthy existing file_extension is also kept. -/
theorem C7_frame (existing new : Preference) :
    (merge_preferences existing new).preference_value = existing.preference_value ∧
    (merge_preferences existing new).id = existing.id ∧
    (merge_preferences existing new).category = existing.category ∧
    (merge_preferences existing new).preference_key = existing.preference_key ∧
    (strOptTruthy existing.file_extension = true →
      (merge_preferences existing new).file_extension = existing.file_extension) := by
  refine ⟨rfl, rfl, rfl, rfl, ?_⟩
  intro h
  show (if strOptTruthy existing.file_extension then existing.file_extension
        else new.file_extension) = existing.file_extension
  rw [h]
  rfl

/-- Witness for C7 at a concrete pair of preferences. -/
theorem C7_frame_witness :
    (merge_preferences (mkPref (mkRat 1 2) ("t1")) (mkPref (mkRat 1 2) ("t2"))).preference_value
        = (mkPref (mkRat 1 2) ("t1")).preference_value ∧
    (merge_preferences (mkPref (mkRat 1 2) ("t1")) (mkPref (mkRat 1 2) ("t2"))).id
        = (mkPref (mkRat 1 2) ("t1")).id ∧
    (merge_preferences (mkPref (mkRat 1 2) ("t1")) (mkPref (mkRat 1 2) ("t2"))).category
        = (mkPref (mkRat 1 2) ("t1")).category ∧
    (merge_preferences (mkPref (mkRat 1 2) ("t1")) (mkPref (mkRat 1 2) ("t2"))).preference_key
        = (mkPref (mkRat 1 2) ("t1")).preference_key ∧
    (strOptTruthy (mkPref (mkRat 1 2) ("t1")).file_extension = true →
      (merge_preferences (mkPref (mkRat 1 2) ("t1")) (mkPref (mkRat 1 2) ("t2"))).file_extension
        = (mkPref (mkRat 1 2) ("t1")).file_extension) :=
  C7_frame (mkPref (mkRat 1 2) ("t1")) (mkPref (mkRat 1 2) ("t2"))

/-- C8 (amended): first_seen and last_seen of a merge are the least and
greatest of the non-empty timestamps of the PRE-truncation combined
evidence (not of the returned, truncated evidence), with the stated
fallbacks when no timestamp exists. -/
theorem C8_first_last_seen (e n : Preference) (h : mergeTimestamps e n ≠ []) :
    ((merge_preferences e n).first_seen ∈ mergeTimestamps e n ∧
      ∀ t ∈ mergeTimestamps e n,
        lexLeChars (merge_preferences e n).first_seen.data t.data = true) ∧
    ((merge_preferences e n).last_seen ∈ mergeTimestamps e n ∧
      ∀ t ∈ mergeTimestamps e n,
        lexLeChars t.data (merge_preferences e n).last_seen.data = true) := by
  obtain ⟨t, ts, hts⟩ := List.exists_cons_of_ne_nil h
  have hf : (merge_preferences e n).first_seen = ts.foldl smin t := by
    rw [merge_first_seen_def, hts]
  have hl : (merge_preferences e n).last_seen = ts.foldl smax t := by
    rw [merge_last_seen_def, hts]
  rw [hf, hl, hts]
  exact ⟨⟨foldl_smin_mem t ts, foldl_smin_le t ts⟩,
         ⟨foldl_smax_mem t ts, foldl_smax_ge t ts⟩⟩

/-- Witness for the amended C8 at a concrete pair of preferences. -/
theorem C8_first_last_seen_witness :
    ((merge_preferences (mkPref (mkRat 1 2) ("t1")) (mkPref (mkRat 1 2) ("t2"))).first_seen
        ∈ mergeTimestamps (mkPref (mkRat 1 2) ("t1")) (mkPref (mkRat 1 2) ("t2")) ∧
      ∀ t ∈ mergeTimestamps (mkPref (mkRat 1 2) ("t1")) (mkPref (mkRat 1 2) ("t2")),
        lexLeChars (merge_preferences (mkPref (mkRat 1 2) ("t1"))
          (mkPref (mkRat 1 2) ("t2"))).first_seen.data t.data = true) ∧
    ((merge_preferences (mkPref (mkRat 1 2) ("t1")) (mkPref (mkRat 1 2) ("t2"))).last_seen
        ∈ mergeTimestamps (mkPref (mkRat 1 2) ("t1")) (mkPref (mkRat 1 2) ("t2")) ∧
      ∀ t ∈ mergeTimestamps (mkPref (mkRat 1 2) ("t1")) (mkPref (mkRat 1 2) ("t2")),
        lexLeChars t.data (merge_preferences (mkPref (mkRat 1 2) ("t1"))
          (mkPref (mkRat 1 2) ("t2"))).last_seen.data = true) :=
  C8_first_last_seen (mkPref (mkRat 1 2) ("t1")) (mkPref (mkRat 1 2) ("t2")) (by decide)

/-- Python min over a list of strings, None when empty. -/
def minString : List String → Option String
  | [] => none
  | t :: ts => some (ts.foldl smin t)

/-- The existing preference for the C8 counterexample: ten evidence
entries timestamped a0 through a9. -/
def c8existing : Preference :=
  { id := "p", file_extension := none, category := "patterns", preference_key := "k",
    preference_value := "v",
    evidence := [mkEv ("a0"), mkEv ("a1"), mkEv ("a2"), mkEv ("a3"), mkEv ("a4"),
                 mkEv ("a5"), mkEv ("a6"), mkEv ("a7"), mkEv ("a8"), mkEv ("a9")],
    occurrence_count := 10, confidence := mkRat 1 2,
    first_seen := "a0", last_seen := "a9" }

/-- C8 counterexample: after merging an eleventh observation, the
truncation drops the oldest entry (timestamp a0), so first_seen (a0) is
NOT the minimum (a1) over the timestamps of the returned, post-truncation
evidence, contradicting the claim. -/
theorem C8_counterexample :
    (merge_preferences c8existing (mkPref (mkRat 1 2) ("b"))).first_seen = "a0" ∧
    minString ((merge_preferences c8existing (mkPref (mkRat 1 2) ("b"))).evidence.map
      (fun ev => ev.timestamp)) = some ("a1") ∧
    ("a0" : String) ≠ "a1" := by
  exact ⟨by decide, by decide, by decide⟩

/-- C2 (amended): each merge step adds at most 0.4 on top of the larger
confidence, so folding further observations into an initial preference
keeps the confidence at most min(1, B + 0.4 * number of merge steps)
for any common bound B on the folded confidences; the 0.4 boost is per
step, not a cap for the whole aggregation. -/
theorem C2_fold_bound (B : ℚ) (p0 : Preference) (ps : List Preference)
    (h1 : p0.confidence ≤ 1) (h0 : p0.confidence ≤ B)
    (hps : ∀ p ∈ ps, p.confidence ≤ B) :
    (ps.foldl merge_preferences p0).confidence ≤ min 1 (B + (2/5) * ps.length) := by
  induction ps generalizing p0 B with
  | nil =>
    simp only [List.foldl_nil, List.length_nil, Nat.cast_zero, mul_zero, add_zero]
    exact le_min h1 h0
  | cons p ps ih =>
    simp only [List.foldl_cons]
    have hm1 : (merge_preferences p0 p).confidence ≤ 1 := merge_conf_le_one _ _
    have hm2 : (merge_preferences p0 p).confidence ≤ B + 2/5 :=
      le_trans (merge_conf_le_add _ _)
        (add_le_add_right (max_le h0 (hps p (List.mem_cons_self _ _))) _)
    have hrec := ih _ _ hm1 hm2
      (fun q hq => le_trans (hps q (List.mem_cons_of_mem _ hq))
        (le_add_of_nonneg_right (by norm_num)))
    refine le_trans hrec (le_of_eq ?_)
    congr 1
    push_cast [List.length_cons]
    ring

/-- Witness for the amended C2 at a concrete fold. -/
theorem C2_fold_bound_witness :
    ([mkPref (mkRat 1 2) ("t2"), mkPref (mkRat 1 2) ("t3")].foldl merge_preferences
      (mkPref (mkRat 1 2) ("t1"))).confidence ≤
      min 1 (mkRat 1 2 + (2/5) *
        ([mkPref (mkRat 1 2) ("t2"), mkPref (mkRat 1 2) ("t3")] : List Preference).length) :=
  C2_fold_bound (mkRat 1 2) (mkPref (mkRat 1 2) ("t1"))
    [mkPref (mkRat 1 2) ("t2"), mkPref (mkRat 1 2) ("t3")]
    (by decide) (by decide) (by decide)

/-- A detection of confidence 0.5 with the given timestamp, as the
reminder pattern can produce (base 0.5, no boosts), used by the C2
counterexample; all three share the same extracted rule. -/
def c2det (ts : String) : DetectedCorrection :=
  { id := "d", message_id := "m", target_msg_id := none,
    correction_type := "reminder", user_message := "use picas not points",
    assistant_message := none, extracted_rule := some ("use picas not points"),
    confidence := mkRat 1 2, conversation_id := "c", project_path := "/p",
    timestamp := ts, file_touched := none }

/-- The single-observation preferences extracted from the three
detections of the C2 counterexample. -/
def c2singles : List Preference :=
  [c2det ("t1"), c2det ("t2"), c2det ("t3")].filterMap
    (extract_preference_from_correction ("id"))

/-- The confidence after folding the C2 counterexample detections. -/
def c2foldConf : ℚ :=
  match c2singles with
  | [] => 0
  | p :: ps => (ps.foldl merge_preferences p).confidence

/-- C2 counterexample: three detections of confidence 0.5 sharing one
preference key fold to confidence 1, strictly above the claimed bound
min(1, 0.5 + 0.4) = 0.9: the repetition boost compounds across merges
because each step re-applies a fresh boost to the already-boosted
confidence. -/
theorem C2_counterexample :
    (c2singles.map (fun p => p.confidence) = [mkRat 1 2, mkRat 1 2, mkRat 1 2]) ∧
    (c2singles.map (fun p => p.preference_key) =
      [("use picas not points"), ("use picas not points"), ("use picas not points")]) ∧
    c2foldConf = 1 ∧
    ¬ (c2foldConf ≤ min 1 (mkRat 1 2 + 2/5)) := by
  refine ⟨by decide, by decide, by decide, ?_⟩
  have h1 : c2foldConf = 1 := by decide
  have h2 : mkRat 1 2 + 2/5 = (9/10 : ℚ) := by rw [mkRat_1_2]; norm_num
  rw [h1, h2, min_eq_right (by norm_num : (9/10:ℚ) ≤ 1)]
  norm_num

/-- Soundness of the inner pattern loop: a produced detection carries
the scanned message, its file reference and assistant context, and its
confidence is the capped boost formula for some matching pattern of the
table. -/
theorem patternLoop_sound (fresh : Nat → String) (cid pp : String) (k : Nat) (m : Msg)
    (prev : Option Msg) :
    ∀ (l : List (Regex × String × ℚ)) (d : DetectedCorrection),
      patternLoop fresh cid pp k m prev l = some d →
      d.user_message = m.content ∧
      d.file_touched = extract_file_reference m.content ∧
      d.assistant_message = prev.map Msg.content ∧
      ∃ re base, (re, d.correction_type, base) ∈ l ∧
        (refind false re m.content.data).isSome = true ∧
        d.confidence =
          qmin (qmin (qadd (qadd base (if prev.isSome then mkRat 1 20 else 0))
            (if strOptTruthy (extract_file_reference m.content) then mkRat 1 20 else 0))
            (mkRat 13 20)) 1 := by
  intro l
  induction l with
  | nil => intro d h; simp [patternLoop] at h
  | cons entry rest ih =>
    obtain ⟨re, ctype, base⟩ := entry
    intro d h
    rw [patternLoop] at h
    split at h
    case isTrue hre =>
      split at h
      case h_1 rule hrule =>
        split at h
        case isTrue hempty =>
          obtain ⟨h1, h2, h3, re2, b2, hmem, hsearch, hconf⟩ := ih d h
          exact ⟨h1, h2, h3, re2, b2, List.mem_cons_of_mem _ hmem, hsearch, hconf⟩
        case isFalse hempty =>
          cases h
          exact ⟨rfl, rfl, rfl, re, base, List.mem_cons_self _ _, hre, rfl⟩
      case h_2 hrule =>
        obtain ⟨h1, h2, h3, re2, b2, hmem, hsearch, hconf⟩ := ih d h
        exact ⟨h1, h2, h3, re2, b2, List.mem_cons_of_mem _ hmem, hsearch, hconf⟩
    case isFalse hre =>
      obtain ⟨h1, h2, h3, re2, b2, hmem, hsearch, hconf⟩ := ih d h
      exact ⟨h1, h2, h3, re2, b2, List.mem_cons_of_mem _ hmem, hsearch, hconf⟩

/-- Soundness of the message loop: every produced detection failed the
positive-feedback and noise gates, records its own file reference, and
carries the capped confidence formula of some matching pattern. -/
theorem detectLoop_sound (fresh : Nat → String) (cid pp : String) :
    ∀ (msgs : List Msg) (k : Nat) (prev : Option Msg) (d : DetectedCorrection),
      d ∈ detectLoop fresh cid pp k prev msgs →
      is_positive_feedback d.user_message = false ∧
      is_noise_content d.user_message = false ∧
      d.file_touched = extract_file_reference d.user_message ∧
      ∃ re base, (re, d.correction_type, base) ∈ PREFERENCE_PATTERNS ∧
        (refind false re d.user_message.data).isSome = true ∧
        d.confidence =
          qmin (qmin (qadd (qadd base (if d.assistant_message.isSome then mkRat 1 20 else 0))
            (if strOptTruthy d.file_touched then mkRat 1 20 else 0)) (mkRat 13 20)) 1 := by
  intro msgs
  induction msgs with
  | nil => intro k prev d h; simp [detectLoop] at h
  | cons m rest ih =>
    intro k prev d h
    rw [detectLoop] at h
    split at h
    case isTrue => exact ih _ _ d h
    case isFalse =>
      split at h
      case isTrue => exact ih _ _ d h
      case isFalse =>
        split at h
        case isTrue => exact ih _ _ d h
        case isFalse hpos =>
          split at h
          case isTrue => exact ih _ _ d h
          case isFalse hnoise =>
            split at h
            case h_1 det hpl =>
              rcases List.mem_cons.mp h with hd | hd
              · subst hd
                obtain ⟨h1, h2, h3, re2, b2, hmem, hsearch, hconf⟩ :=
                  patternLoop_sound fresh cid pp k m prev PREFERENCE_PATTERNS d hpl
                have hprev : prev.isSome = d.assistant_message.isSome := by
                  rw [h3]; cases prev <;> rfl
                refine ⟨?_, ?_, ?_, re2, b2, hmem, ?_, ?_⟩
                · rw [h1]; exact Bool.not_eq_true _ ▸ eq_false_of_ne_true hpos
                · rw [h1]; exact eq_false_of_ne_true hnoise
                · rw [h1, h2]
                · rw [h1]; exact hsearch
                · rw [hconf, hprev, h2]
              · exact ih _ _ d hd
            case h_2 hpl => exact ih _ _ d h

/-- C1: every detection produced by scanning a conversation has
confidence at most 0.65, and that confidence equals the matched pattern
base confidence plus 0.05 for an assistant turn in context plus 0.05
for a detected file extension, each at most once, capped at 0.65 (and
at 1). -/
theorem C1_confidence_cap (fresh : Nat → String) (cid pp : String)
    (messages : List Msg) (d : DetectedCorrection)
    (h : d ∈ detect_corrections_in_conversation fresh cid pp messages) :
    d.confidence ≤ 13/20 ∧
    ∃ re base, (re, d.correction_type, base) ∈ PREFERENCE_PATTERNS ∧
      (refind false re d.user_message.data).isSome = true ∧
      d.confidence = min (min (base + (if d.assistant_message.isSome then (1/20 : ℚ) else 0)
        + (if strOptTruthy d.file_touched then (1/20 : ℚ) else 0)) (13/20)) 1 := by
  obtain ⟨-, -, -, re, base, hmem, hsearch, hconf⟩ :=
    detectLoop_sound fresh cid pp messages 0 none d h
  have hconf2 : d.confidence =
      min (min (base + (if d.assistant_message.isSome then (1/20 : ℚ) else 0)
        + (if strOptTruthy d.file_touched then (1/20 : ℚ) else 0)) (13/20)) 1 := by
    rw [hconf, qmin_eq_min, qmin_eq_min, qadd_eq_add, qadd_eq_add, mkRat_13_20, mkRat_1_20]
  refine ⟨?_, re, base, hmem, hsearch, hconf2⟩
  rw [hconf2]
  exact le_trans (min_le_left _ _) (min_le_right _ _)

/-- The assistant message of the sample conversation. -/
def sampleAsst : Msg :=
  { id := "m1", role := "assistant", content := "asst", timestamp := "t1",
    parent_uuid := none }

/-- The user message of the sample conversation: a tool preference with
an assistant turn in context and a detected python file type. -/
def sampleUser : Msg :=
  { id := "m2", role := "user", content := "always use uv for python", timestamp := "t2",
    parent_uuid := none }

/-- The detection the scan produces on the sample conversation. -/
def sampleDet : DetectedCorrection :=
  { id := "x", message_id := "m2", target_msg_id := some "m1", correction_type := "tool",
    user_message := "always use uv for python", assistant_message := some "asst",
    extracted_rule := some ("always use uv for python"), confidence := mkRat 13 20,
    conversation_id := "c1", project_path := "/p", timestamp := "t2",
    file_touched := some ".py" }

/-- Witness for C1 at the sample conversation. -/
theorem C1_confidence_cap_witness :
    sampleDet.confidence ≤ 13/20 ∧
    ∃ re base, (re, sampleDet.correction_type, base) ∈ PREFERENCE_PATTERNS ∧
      (refind false re sampleDet.user_message.data).isSome = true ∧
      sampleDet.confidence =
        min (min (base + (if sampleDet.assistant_message.isSome then (1/20 : ℚ) else 0)
          + (if strOptTruthy sampleDet.file_touched then (1/20 : ℚ) else 0)) (13/20)) 1 :=
  C1_confidence_cap (fun _ => "x") ("c1") ("/p") [sampleAsst, sampleUser] sampleDet
    (by decide)

/-- C6: a message matching a positive-feedback pattern is classified
positive and the scan never produces a detection carrying it: every
detection of every conversation has a user message that is not that
text. -/
theorem C6_positive_no_detection (t : String) (h : is_positive_feedback t = true)
    (fresh : Nat → String) (cid pp : String) (messages : List Msg)
    (d : DetectedCorrection)
    (hd : d ∈ detect_corrections_in_conversation fresh cid pp messages) :
    d.user_message ≠ t := by
  intro heq
  have hfalse := (detectLoop_sound fresh cid pp messages 0 none d hd).1
  rw [heq, h] at hfalse
  exact absurd hfalse (by simp)

/-- The positive-feedback text of the C6 witness. -/
def samplePositive : String := "Thanks, that looks good!"

/-- Witness for C6: the positive text is never the user message of the
detection produced on the sample conversation. -/
theorem C6_positive_no_detection_witness : sampleDet.user_message ≠ samplePositive :=
  C6_positive_no_detection samplePositive (by decide) (fun _ => "x") ("c1") ("/p")
    [sampleAsst, sampleUser] sampleDet (by decide)

/-- The C3 input text: please don(apostrophe)t guess the version. -/
def c3text : String := "please don" ++ aposS ++ "t guess the version"

/-- The C3 companion text without the please prefix. -/
def c3textBare : String := "don" ++ aposS ++ "t guess the version"

/-- C3 counterexample: rule extraction on the claimed input returns
None, not an instruction containing the negation clause: the
behavioral-preference gate rejects the text (its only negation signal
is anchored at the string start, and the text starts with please), so
the claimed non-None result does not occur. -/
theorem C3_counterexample : extract_correction_rule c3text = none := by decide

/-- C3 (amended): on the claimed input the extractor returns None (the
behavioral gate fails, the task gate does not fire), so in particular
the unsafe isolated word guess is never returned; on the same sentence
without the please prefix the gate passes and the extractor returns the
full sentence, preserving the negation. -/
theorem C3_negation_extraction :
    extract_correction_rule c3text = none ∧
    extract_correction_rule c3text ≠ some ("guess") ∧
    is_task_request (pyStrip c3text) = false ∧
    is_behavioral_preference (pyStrip c3text) = false ∧
    extract_correction_rule c3textBare = some c3textBare ∧
    extract_correction_rule c3textBare ≠ some ("guess") ∧
    ("don" ++ aposS ++ "t guess").data <:+: c3textBare.data := by
  refine ⟨by decide, by decide, by decide, by decide, by decide, by decide, ?_⟩
  exact ⟨[], (" the version").data, rfl⟩

/-- The C9 input message text. -/
def c9text : String := "No, use |> not %>% for pipes in R"

/-- The assistant message preceding the C9 user message. -/
def c9asst : Msg :=
  { id := "m1", role := "assistant", content := "use magrittr", timestamp := "t1",
    parent_uuid := none }

/-- The C9 user message. -/
def c9user : Msg :=
  { id := "m2", role := "user", content := c9text, timestamp := "t2",
    parent_uuid := none }

/-- C9 counterexample: the scan of the claimed conversation produces NO
detection at all, not exactly one. -/
theorem C9_counterexample :
    detect_corrections_in_conversation (fun _ => "x") ("c1") ("/p") [c9asst, c9user]
      = [] := by decide

/-- C9 (amended): the message passes the positive and noise gates and
the first correction pattern (caret-no, base 0.9) matches it, but rule
extraction returns None because the behavioral-preference gate finds no
generalization signal, so no Detection is produced; moreover the file
reference on this text is None, not the claimed .R (the text contains
no dot extension and no file-type keyword the table recognises). -/
theorem C9_scenario :
    is_positive_feedback c9text = false ∧
    is_noise_content c9text = false ∧
    (refind false pat01 c9text.data).isSome = true ∧
    is_behavioral_preference (pyStrip c9text) = false ∧
    extract_correction_rule c9text = none ∧
    extract_file_reference c9text = none ∧
    detect_corrections_in_conversation (fun _ => "y") ("c1") ("/p") [c9asst, c9user]
      = [] := by
  exact ⟨by decide, by decide, by decide, by decide, by decide, by decide, by decide⟩

/-- A first success anywhere in the candidate list makes the ordered
search succeed. -/
theorem firstSome_isSome_of_mem {α β : Type} {l : List α} {f : α → Option β} {x : α}
    (hx : x ∈ l) (hfx : (f x).isSome = true) : (firstSome l f).isSome = true := by
  induction l with
  | nil => simp at hx
  | cons y ys ih =>
    rw [firstSome]
    cases hfy : f y with
    | some b => rfl
    | none =>
      rcases List.mem_cons.mp hx with h | h
      · subst h; rw [hfy] at hfx; simp at hfx
      · exact ih h

/-- The leading run of characters satisfying `p` in `line ++ post` is
the whole line when every line character satisfies `p` and the first
character of `post`, if any, does not. -/
theorem countLeading_full (p : Char → Bool) (line post : List Char)
    (hline : ∀ c ∈ line, p c = true)
    (hpost : post = [] ∨ ∃ c rest, post = c :: rest ∧ p c = false) :
    countLeading p (line ++ post) = line.length := by
  induction line with
  | nil =>
    rcases hpost with h | ⟨c, rest, hc, hpc⟩
    · subst h; rfl
    · subst hc; simp [countLeading, hpc]
  | cons a as ih =>
    have ha : p a = true := hline a (List.mem_cons_self _ _)
    have ih2 := ih (fun c hc => hline c (List.mem_cons_of_mem _ hc))
    simp [countLeading, ha, ih2]

/-- A match attempt succeeds exactly when the underlying matcher run
succeeds. -/
theorem matchAt_isSome (ml : Bool) (r : Regex) (input : List Char) (i : Nat) :
    (matchAt ml r input i).isSome =
    (r.run ml { suffix := input.drop i,
                prev := if i = 0 then none else (input.drop (i - 1)).head?,
                caps := [] } some).isSome := by
  unfold matchAt
  exact Option.isSome_map'

/-- The short-line noise pattern matches at the start position of a
maximal line of one to fifteen non-newline characters. -/
theorem matchAt_shortline (input pre line post : List Char)
    (hinput : input = pre ++ (line ++ post))
    (hpre : pre = [] ∨ ∃ pre0, pre = pre0 ++ [nlChar])
    (hpost : post = [] ∨ ∃ rest, post = nlChar :: rest)
    (h1 : 1 ≤ line.length) (h15 : line.length ≤ 15)
    (hline : ∀ c ∈ line, isDotChar c = true) :
    (matchAt true noise30 input pre.length).isSome = true := by
  have hsuf : input.drop pre.length = line ++ post := by
    rw [hinput, List.drop_left]
  have hre : noise30 = Regex.cat Regex.bol
      (Regex.cat (Regex.repCls isDotChar 1 (some 15) false)
        (Regex.cat Regex.eol Regex.eps)) := rfl
  -- the tail continuation after the repetition consumes the line
  have hcount : countLeading isDotChar (line ++ post) = line.length := by
    refine countLeading_full _ _ _ hline ?_
    rcases hpost with h | ⟨rest, h⟩
    · exact Or.inl h
    · exact Or.inr ⟨nlChar, rest, h, by simp [isDotChar]⟩
  have heol : ∀ (pv : Option Char) (caps : List (Nat × List Char)),
      ((Regex.cat Regex.eol Regex.eps).run true
        { suffix := post, prev := pv, caps := caps } some).isSome = true := by
    intro pv caps
    rcases hpost with h | ⟨rest, h⟩ <;> subst h <;> simp [Regex.run]
  -- the repetition succeeds by consuming the full line first
  have hrep : ∀ (pv : Option Char),
      ((Regex.cat (Regex.repCls isDotChar 1 (some 15) false)
        (Regex.cat Regex.eol Regex.eps)).run true
        { suffix := line ++ post, prev := pv, caps := [] } some).isSome = true := by
    intro pv
    rw [Regex.run, Regex.run]
    simp only [hcount]
    have hmin : min 15 line.length = line.length := min_eq_right h15
    rw [hmin]
    have hnotlt : ¬ (line.length < 1) := by omega
    rw [if_neg hnotlt]
    obtain ⟨m, hm⟩ : ∃ m, line.length = m + 1 := ⟨line.length - 1, by omega⟩
    rw [hm]
    have hrange : List.range' 1 (m + 1 + 1 - 1) = List.range' 1 m ++ [1 + m] := by
      have : m + 1 + 1 - 1 = m + 1 := by omega
      rw [this, List.range'_concat]
      simp
    rw [hrange]
    simp only [Bool.if_false_left, Bool.false_eq_true, if_false, List.reverse_append,
      List.reverse_cons, List.reverse_nil, List.nil_append, List.singleton_append]
    rw [firstSome]
    have hconsume : consumeN { suffix := line ++ post, prev := pv, caps := [] } (1 + m) =
        { suffix := post,
          prev := if 1 + m = 0 then pv else ((line ++ post).drop (1 + m - 1)).head?,
          caps := [] } := by
      simp only [consumeN]
      congr 1
      rw [show 1 + m = line.length by omega, List.drop_left]
    rw [hconsume]
    rw [show ((Regex.cat Regex.eol Regex.eps).run true
        { suffix := post,
          prev := if 1 + m = 0 then pv else ((line ++ post).drop (1 + m - 1)).head?,
          caps := [] } some) =
        ((Regex.cat Regex.eol Regex.eps).run true
        { suffix := post,
          prev := if 1 + m = 0 then pv else ((line ++ post).drop (1 + m - 1)).head?,
          caps := [] } some) from rfl]
    cases hrun : (Regex.cat Regex.eol Regex.eps).run true
        { suffix := post,
          prev := if 1 + m = 0 then pv else ((line ++ post).drop (1 + m - 1)).head?,
          caps := [] } some with
    | some s => rfl
    | none =>
      have := heol (if 1 + m = 0 then pv else ((line ++ post).drop (1 + m - 1)).head?) []
      rw [hrun] at this
      simp at this
  -- assemble through the line anchor
  rw [matchAt_isSome]
  rcases hpre with h | ⟨pre0, h⟩
  · subst h
    have hpv : (if ([] : List Char).length = 0 then (none : Option Char)
        else (input.drop (([] : List Char).length - 1)).head?) = none := by
      simp
    rw [hpv, hsuf]
    have hass : noise30.run true { suffix := line ++ post, prev := none, caps := [] } some
        = (Regex.cat (Regex.repCls isDotChar 1 (some 15) false)
            (Regex.cat Regex.eol Regex.eps)).run true
            { suffix := line ++ post, prev := none, caps := [] } some := rfl
    rw [hass]
    exact hrep none
  · subst h
    have hnz : ¬ ((pre0 ++ [nlChar]).length = 0) := by simp
    have hprevdrop : input.drop ((pre0 ++ [nlChar]).length - 1) =
        nlChar :: (line ++ post) := by
      have h2 : input = pre0 ++ (nlChar :: (line ++ post)) := by
        rw [hinput]; simp
      have h3 : (pre0 ++ [nlChar]).length - 1 = pre0.length := by simp
      rw [h2, h3]
      exact List.drop_left pre0 (nlChar :: (line ++ post))
    rw [if_neg hnz, hprevdrop, hsuf]
    simp only [List.head?_cons]
    have hass : noise30.run true
        { suffix := line ++ post, prev := some nlChar, caps := [] } some
        = (Regex.cat (Regex.repCls isDotChar 1 (some 15) false)
            (Regex.cat Regex.eol Regex.eps)).run true
            { suffix := line ++ post, prev := some nlChar, caps := [] } some := by
      rw [hre]
      show (if true && decide (nlChar = nlChar) = true then
          (Regex.cat (Regex.repCls isDotChar 1 (some 15) false)
            (Regex.cat Regex.eol Regex.eps)).run true
            { suffix := line ++ post, prev := some nlChar, caps := [] } some
        else none) = _
      simp
    rw [hass]
    exact hrep (some nlChar)

/-- C10 (amended): any message containing a full line of one to fifteen
characters (none of them a newline) is classified noise by the
short-line indicator, and therefore can never yield a Detection, even
if the rest of the message states a clear generalizable preference.
Messages consisting only of newlines have no such line and are NOT
noise, so the restriction to a line with at least one character is
essential. -/
theorem C10_short_line_noise (text : String) (pre line post : List Char)
    (hdata : text.data = pre ++ (line ++ post))
    (hpre : pre = [] ∨ ∃ pre0, pre = pre0 ++ [nlChar])
    (hpost : post = [] ∨ ∃ rest, post = nlChar :: rest)
    (h1 : 1 ≤ line.length) (h15 : line.length ≤ 15)
    (hline : ∀ c ∈ line, c ≠ nlChar) :
    is_noise_content text = true ∧
    ∀ (fresh : Nat → String) (cid pp : String) (messages : List Msg)
      (d : DetectedCorrection),
      d ∈ detect_corrections_in_conversation fresh cid pp messages →
      d.user_message ≠ text := by
  have hline2 : ∀ c ∈ line, isDotChar c = true := by
    intro c hc
    simp [isDotChar, hline c hc]
  have hmatch : (matchAt true noise30 text.data pre.length).isSome = true :=
    matchAt_shortline text.data pre line post hdata hpre hpost h1 h15 hline2
  have hposmem : pre.length ∈ List.range (text.data.length + 1) := by
    rw [List.mem_range, hdata]
    simp only [List.length_append]
    omega
  have hsearch : reSearch true noise30 text = true := by
    unfold reSearch refind
    exact firstSome_isSome_of_mem hposmem hmatch
  have hany : NOISE_INDICATORS.any (fun p => reSearch true p text) = true :=
    List.any_eq_true.mpr ⟨noise30, by simp [NOISE_INDICATORS], hsearch⟩
  have hnoise : is_noise_content text = true := by
    unfold is_noise_content
    rw [hany]
    simp
  refine ⟨hnoise, ?_⟩
  intro fresh cid pp messages d hd heq
  have hfalse := (detectLoop_sound fresh cid pp messages 0 none d hd).2.1
  rw [heq, hnoise] at hfalse
  exact absurd hfalse (by simp)

/-- The C10 witness text. -/
def c10text : String := "use tabs"

/-- Witness for the amended C10: an eight-character single-line message
is noise. -/
theorem C10_short_line_noise_witness : is_noise_content c10text = true :=
  (C10_short_line_noise c10text [] c10text.data [] (by decide) (Or.inl rfl)
    (Or.inl rfl) (by decide) (by decide) (by decide)).1

/-- The one-character newline message for the C10 counterexample. -/
def c10newline : String := "\n"

/-- C10 counterexample: a non-empty message of at most fifteen
characters consisting of a single newline is NOT classified noise (it
contains no line of one to fifteen characters), refuting the claim
that every non-empty message of at most fifteen characters is noise. -/
theorem C10_counterexample :
    c10newline ≠ "" ∧ c10newline.length ≤ 15 ∧
    is_noise_content c10newline = false := by
  exact ⟨by decide, by decide, by decide⟩
